import Mathlib

set_option maxRecDepth 8000

/-!
Verification development for `scripts/build_counterfactual.py`, the generator of
historical vs counterfactual nuclear-rollout data.

The Python source is shallowly embedded: floats are modelled as rationals (`ℚ`),
`round(x, n)` as round-half-to-even on rationals, pandas year lookups as total
functions `ℤ → _` (the real frames have one row per year), and Python `set`s of
record ids as `Finset ℤ`.  Loading, parsing and JSON output are outside the
embedding; the functions below receive the already-loaded tables as arguments.
-/

namespace CFRollout

/-! ## Rounding (Python `round`, banker's rounding on exact rationals) -/

/-- Python `round(x)`: round half to even. -/
def roundHalfEven (x : ℚ) : ℤ :=
  let n := ⌊x⌋
  let f := x - (n : ℚ)
  if f < 1/2 then n
  else if 1/2 < f then n + 1
  else if n % 2 = 0 then n else n + 1

/-- Python `round(x, 2)`. -/
def round2 (x : ℚ) : ℚ := (roundHalfEven (100 * x) : ℚ) / 100

/-- Python `round(x, 1)`. -/
def round1 (x : ℚ) : ℚ := (roundHalfEven (10 * x) : ℚ) / 10

/-! ## Module-level constants (source lines 19-111) -/

def START_YEAR : ℤ := 1989
def END_YEAR : ℤ := 2025
def NUCLEAR_CAPACITY_SEQUENCE : List ℚ := [1410]
def UNITS_PER_YEAR_PATTERN : List ℕ := [2, 1]
def BUILD_START_YEAR : ℤ := 1990
def RENEWABLE_FREEZE_YEAR : ℤ := 1998
def HOURS_PER_YEAR : ℚ := 8760
def NUCLEAR_CAPACITY_FACTOR : ℚ := 9/10

/-! ## Emissions projector (`compute_emissions_timeseries`, source lines 853-1040)

A generation row carries one value per column of `GENERATION_COLUMNS`; the
`get_value` NaN guard of the source is not modelled (values are plain rationals).
-/

structure GenRow where
  year : ℤ
  coal : ℚ := 0
  gas : ℚ := 0
  nuclear : ℚ := 0
  hydro : ℚ := 0
  solar : ℚ := 0
  oil : ℚ := 0
  wind : ℚ := 0
  bioenergy : ℚ := 0
  other_renewables : ℚ := 0
deriving DecidableEq

/-- Sum over `FOSSIL_GENERATION_COLUMNS` (coal, gas, oil). -/
def fossilTwhOf (r : GenRow) : ℚ := r.coal + r.gas + r.oil

/-- Sum over `RENEWABLE_GENERATION_COLUMNS` (hydro, solar, wind, bioenergy, other). -/
def renewablesTwhOf (r : GenRow) : ℚ :=
  r.hydro + r.solar + r.wind + r.bioenergy + r.other_renewables

/-- The CO₂ loop over `EMISSIONS_FACTORS_TON_PER_MWH` (source lines 912-914);
zero factors of the renewable columns are kept as written. -/
def co2Of (r : GenRow) : ℚ :=
  r.coal * (95/100) + r.gas * (45/100) + r.oil * (78/100) + r.nuclear * (1/100)
    + r.hydro * 0 + r.solar * 0 + r.wind * 0 + r.bioenergy * 0 + r.other_renewables * 0

/-- One row of the per-year fossil capacity breakdown frame. -/
structure FossilCaps where
  hard_coal : ℚ := 0
  lignite : ℚ := 0
  natural_gas : ℚ := 0
  oil : ℚ := 0
deriving DecidableEq

/-- The four capacity-series inputs of `compute_emissions_timeseries`, indexed by
year (`.loc[year]`; the real frames are keyed uniquely by year). Only the
`nuclear_mw` column of the two capacity frames is read by the projector. -/
structure EmEnv where
  capacityNuclearActual : ℤ → ℚ
  capacityNuclearCf : ℤ → ℚ
  breakdownActual : ℤ → FossilCaps
  breakdownCf : ℤ → FossilCaps

/-- One record of an emissions time series (source lines 917-927 / 1020-1030). -/
structure EmissionsRecord where
  year : ℤ
  fossil_twh : ℚ
  nuclear_twh : ℚ
  renewables_twh : ℚ
  total_twh : ℚ
  co2_mt : ℚ
  clean_twh : ℚ
deriving DecidableEq

/-- The actual-series record for one generation row (source lines 907-927). -/
def actualRecordOf (data : GenRow) : EmissionsRecord :=
  let fossil_twh := fossilTwhOf data
  let nuclear_actual_twh := data.nuclear
  let renewables_twh := renewablesTwhOf data
  let total_twh := fossil_twh + nuclear_actual_twh + renewables_twh
  { year := data.year
    fossil_twh := round2 fossil_twh
    nuclear_twh := round2 nuclear_actual_twh
    renewables_twh := round2 renewables_twh
    total_twh := round2 total_twh
    co2_mt := round2 (co2Of data)
    clean_twh := round2 (nuclear_actual_twh + renewables_twh) }

/-- Counterfactual nuclear cap for the year (source lines 929-942):
`baseline + extra_capacity × hours × capacity_factor / 1e6`, with the extra
zeroed at or before the baseline year. -/
def availableMaxNuclearTwh (E : EmEnv) (baselineNuclearTwh : ℚ) (year : ℤ) : ℚ :=
  let additional_nuclear_capacity :=
    max (E.capacityNuclearCf year - E.capacityNuclearActual year) 0
  let potential0 :=
    additional_nuclear_capacity * HOURS_PER_YEAR * NUCLEAR_CAPACITY_FACTOR / 1000000
  let potential_extra_nuclear_twh := if year ≤ START_YEAR then 0 else potential0
  baselineNuclearTwh + potential_extra_nuclear_twh

/-- Sub-fuel split of the counterfactual fossil energy (source lines 956-1000).
Returns `(coal_twh, gas_twh, oil_twh, cf_fossil_twh)` after the branch that can
reset `cf_fossil_twh` to zero. -/
def fossilSplit (E : EmEnv) (data : GenRow) (cf_fossil_twh : ℚ) : ℚ × ℚ × ℚ × ℚ :=
  let ba := E.breakdownActual data.year
  let bc := E.breakdownCf data.year
  let coal_actual_cap := ba.hard_coal + ba.lignite
  let coal_cf_cap := bc.hard_coal + bc.lignite
  let gas_actual_cap := ba.natural_gas
  let gas_cf_cap := bc.natural_gas
  let oil_actual_cap := ba.oil
  let oil_cf_cap := bc.oil
  let coal_scaling := if 0 < coal_actual_cap then coal_cf_cap / coal_actual_cap else 0
  let gas_scaling := if 0 < gas_actual_cap then gas_cf_cap / gas_actual_cap else 0
  let oil_scaling := if 0 < oil_actual_cap then oil_cf_cap / oil_actual_cap else 0
  let scaled_coal := data.coal * coal_scaling
  let scaled_gas := data.gas * gas_scaling
  let scaled_oil := data.oil * oil_scaling
  let scaled_total := scaled_coal + scaled_gas + scaled_oil
  if 0 < cf_fossil_twh ∧ 0 < scaled_total then
    let adjust_factor := cf_fossil_twh / scaled_total
    (scaled_coal * adjust_factor, scaled_gas * adjust_factor, scaled_oil * adjust_factor,
      cf_fossil_twh)
  else if 0 < cf_fossil_twh then
    let cap_total_cf := coal_cf_cap + gas_cf_cap + oil_cf_cap
    if 0 < cap_total_cf then
      (cf_fossil_twh * (coal_cf_cap / cap_total_cf), cf_fossil_twh * (gas_cf_cap / cap_total_cf),
        cf_fossil_twh * (oil_cf_cap / cap_total_cf), cf_fossil_twh)
    else (0, 0, 0, 0)
  else (0, 0, 0, 0)

/-- Everything one loop iteration of `compute_emissions_timeseries` produces:
the two records appended, the carried `prev_cf_nuclear_twh`, and the unrounded
intermediates the invariants talk about. -/
structure StepOut where
  recA : EmissionsRecord
  recC : EmissionsRecord
  newPrev : ℚ
  actualTotal : ℚ
  cfNuclear : ℚ
  cfRenew : ℚ
  cfFossilRequired : ℚ
  cfFossilFinal : ℚ
  cfTotal : ℚ

/-- One iteration of the generation-row loop (source lines 900-1035).
`freezeRow` is the row frozen for renewables; `frozenRenewablesTotal` its
renewable sum.  The year-≤-baseline overwrite of the counterfactual record
(source lines 1032-1033) is applied to `recC`. -/
def emissionsStep (E : EmEnv) (baselineNuclearTwh frozenRenewablesTotal : ℚ)
    (freezeRow : GenRow) (prevCfNuclear : ℚ) (data : GenRow) : StepOut :=
  let year := data.year
  let renewables_twh := renewablesTwhOf data
  let total_twh := fossilTwhOf data + data.nuclear + renewables_twh
  let recA := actualRecordOf data
  let cf_nuclear_twh := max prevCfNuclear (availableMaxNuclearTwh E baselineNuclearTwh year)
  let cf_renewables_twh :=
    if year < RENEWABLE_FREEZE_YEAR then renewables_twh else frozenRenewablesTotal
  let cf_other_twh : ℚ := 0
  let potential_without_fossil := cf_nuclear_twh + cf_renewables_twh + cf_other_twh
  let required_fossil_twh := max (total_twh - potential_without_fossil) 0
  let cf_total_twh := potential_without_fossil + required_fossil_twh
  let split := fossilSplit E data required_fossil_twh
  let cf_clean_twh := cf_nuclear_twh + cf_renewables_twh
  let cf_co2 :=
    split.1 * (95/100) + split.2.1 * (45/100) + split.2.2.1 * (78/100)
      + cf_nuclear_twh * (1/100)
      + (if year < RENEWABLE_FREEZE_YEAR then data.hydro else freezeRow.hydro) * 0
      + (if year < RENEWABLE_FREEZE_YEAR then data.solar else freezeRow.solar) * 0
      + (if year < RENEWABLE_FREEZE_YEAR then data.wind else freezeRow.wind) * 0
      + (if year < RENEWABLE_FREEZE_YEAR then data.bioenergy else freezeRow.bioenergy) * 0
      + (if year < RENEWABLE_FREEZE_YEAR then data.other_renewables
         else freezeRow.other_renewables) * 0
  let recC0 : EmissionsRecord :=
    { year := year
      fossil_twh := round2 split.2.2.2
      nuclear_twh := round2 cf_nuclear_twh
      renewables_twh := round2 cf_renewables_twh
      total_twh := round2 cf_total_twh
      co2_mt := round2 cf_co2
      clean_twh := round2 cf_clean_twh }
  { recA := recA
    recC := if year ≤ START_YEAR then recA else recC0
    newPrev := cf_nuclear_twh
    actualTotal := total_twh
    cfNuclear := cf_nuclear_twh
    cfRenew := cf_renewables_twh
    cfFossilRequired := required_fossil_twh
    cfFossilFinal := split.2.2.2
    cfTotal := cf_total_twh }

/-- The row loop, chaining `prev_cf_nuclear_twh`. -/
def emissionsTrace (E : EmEnv) (baselineNuclearTwh frozenRenewablesTotal : ℚ)
    (freezeRow : GenRow) : List GenRow → ℚ → List StepOut
  | [], _ => []
  | r :: rs, prev =>
    let s := emissionsStep E baselineNuclearTwh frozenRenewablesTotal freezeRow prev r
    s :: emissionsTrace E baselineNuclearTwh frozenRenewablesTotal freezeRow rs s.newPrev

/-- `baseline_row` (source lines 871-874): the first row of the baseline year,
else the first row.  (On an empty frame the source would raise; the all-zero
default row is never used by any produced record.) -/
def baselineRowOf (rows : List GenRow) : GenRow :=
  match rows.find? (fun r => r.year == START_YEAR) with
  | some r => r
  | none => rows.headD { year := 0 }

/-- `freeze_row` (source lines 876-880). -/
def freezeRowOf (rows : List GenRow) : GenRow :=
  match rows.find? (fun r => r.year == RENEWABLE_FREEZE_YEAR) with
  | some r => r
  | none => baselineRowOf rows

/-- The whole loop with the baseline/freeze data extracted as in the source
(lines 871-898): initial `prev_cf_nuclear_twh` is the baseline nuclear TWh. -/
def emissionsTraceTop (E : EmEnv) (rows : List GenRow) : List StepOut :=
  let bl := baselineRowOf rows
  let fr := freezeRowOf rows
  emissionsTrace E bl.nuclear (renewablesTwhOf fr) fr rows bl.nuclear

/-- `compute_emissions_timeseries`: the pair (historical records,
counterfactual records). -/
def compute_emissions_timeseries (E : EmEnv) (rows : List GenRow) :
    List EmissionsRecord × List EmissionsRecord :=
  ((emissionsTraceTop E rows).map (fun s => s.recA),
    (emissionsTraceTop E rows).map (fun s => s.recC))

/-! ### Concrete inputs used by witnesses and counterexamples -/

/-- Capacity environment with no extra counterfactual capacity and no fossil caps. -/
def envW : EmEnv := ⟨fun _ => 0, fun _ => 0, fun _ => {}, fun _ => {}⟩

/-- Baseline year with 100 TWh nuclear, then a year whose actual total is zero:
the clean side exceeds the actual total, so the energy-conservation identity breaks. -/
def rowsC1cx : List GenRow := [{ year := 1989, nuclear := 100 }, { year := 1990 }]

/-- A single 1990 row with 0.004 TWh in each of coal, nuclear and hydro: each
component rounds to 0.00 but the total 0.012 rounds to 0.01. -/
def rowsC2cx : List GenRow :=
  [{ year := 1990, coal := 1/250, nuclear := 1/250, hydro := 1/250 }]

/-- Small generation series covering the baseline year, a pre-freeze year and
two post-freeze years. -/
def rowsEmW : List GenRow :=
  [{ year := 1989, nuclear := 100 }, { year := 1990, coal := 50 },
    { year := 1998, hydro := 5 }, { year := 1999, hydro := 7 }]

/-! ## String utilities

Python string operations, modelled on the character lists of Lean strings.
Lower-casing is ASCII-only (the source's keyword sets are ASCII apart from
`ä`, which lower-casing leaves unchanged in both models). -/

/-- ASCII lower-casing of one character. -/
def lowerChar (c : Char) : Char :=
  if 65 ≤ c.toNat ∧ c.toNat ≤ 90 then Char.ofNat (c.toNat + 32) else c

/-- Python whitespace test for `str.strip` (ASCII whitespace). -/
def pyWhitespace (c : Char) : Bool :=
  c.toNat == 32 || c.toNat == 9 || c.toNat == 10 || c.toNat == 13 || c.toNat == 11
    || c.toNat == 12

/-- Python `str.strip()`. -/
def pyStrip (s : String) : String :=
  ⟨((s.data.dropWhile pyWhitespace).reverse.dropWhile pyWhitespace).reverse⟩

/-- Whether `pat` occurs as a contiguous run inside `l` (Python `in` on strings). -/
def listHasSub (pat : List Char) : List Char → Bool
  | [] => pat.isEmpty
  | c :: cs => pat.isPrefixOf (c :: cs) || listHasSub pat cs

/-- Case-insensitive containment: `pat.lower() in hay.lower()`. -/
def strContainsLower (hay pat : String) : Bool :=
  listHasSub (pat.data.map lowerChar) (hay.data.map lowerChar)

/-- Code-point sequence of a string; Python compares strings by exactly this
sequence, lexicographically. -/
def strCodes (s : String) : List ℕ := s.data.map Char.toNat

/-- Lexicographic strict order on code-point sequences. -/
def natListLt : List ℕ → List ℕ → Bool
  | [], [] => false
  | [], _ :: _ => true
  | _ :: _, [] => false
  | a :: as, b :: bs => decide (a < b) || (decide (a = b) && natListLt as bs)

/-- Stable insertion into a sorted list (used to embed Python's stable `sort`). -/
def orderedInsertB (le : α → α → Bool) (a : α) : List α → List α
  | [] => [a]
  | b :: l => if le a b then a :: b :: l else b :: orderedInsertB le a l

/-- Stable insertion sort; the embedding of Python `list.sort(key=...)`. -/
def sortByLe (le : α → α → Bool) : List α → List α
  | [] => []
  | a :: l => orderedInsertB le a (sortByLe le l)

/-! ## Plant registry and closure selector (source lines 37-74, 114-131, 305-389) -/

/-- One row of the loaded plant table.  The loader guarantees plant names;
municipality/technology keep the `isinstance(..., str)` guards of the source as
`Option`s, year columns are nullable.  `idx` is the pandas row index
(`row.Index`). -/
structure PlantsRow where
  idx : ℤ
  name : String
  municipality : Option String
  fuel_bucket : String
  technology : Option String
  capacity_mw : ℚ
  commission_year : Option ℤ
  closure_year : Option ℤ
deriving DecidableEq

def FOSSIL_FUELS : List String := ["hard_coal", "lignite", "natural_gas", "oil"]

def COGEN_KEYWORDS : List String :=
  ["chp", "kwk", "cogen", "cogeneration", "fern", "warme", "wärme", "heiz"]

def EXCLUDED_FOSSIL_PATTERNS : List String :=
  ["HKW", "Heiz", "Fern", "Wärme", "KWK", "Cogen", "CHP"]

/-- `FUEL_PRIORITY.get(bucket, 3)`. -/
def fuelPriorityOf (fuel : String) : ℕ :=
  if fuel = "lignite" ∨ fuel = "hard_coal" then 0
  else if fuel = "oil" then 1
  else if fuel = "natural_gas" then 2
  else 3

/-- The `PlantRecord` dataclass (source lines 114-131). -/
structure PlantRecord where
  record_id : ℤ
  name : String
  municipality : String
  fuel_bucket : String
  technology : String
  capacity_mw : ℚ
  commission_year : Option ℤ
  closure_year : Option ℤ
  is_cogeneration : Bool
deriving DecidableEq

/-- The `descriptor` property (source lines 126-131). -/
def PlantRecord.descriptor (p : PlantRecord) : String :=
  let municipality := pyStrip p.municipality
  if municipality ≠ "" then p.name ++ " (" ++ municipality ++ ")" else p.name

/-- Building one `PlantRecord` from a table row (source lines 310-327). -/
def mkPlantRecord (row : PlantsRow) : PlantRecord :=
  let technology_value := row.technology.getD ""
  let text_blob := row.name ++ " " ++ technology_value
  let is_cogen := COGEN_KEYWORDS.any (fun keyword => strContainsLower text_blob keyword)
  { record_id := row.idx
    name := row.name
    municipality := row.municipality.getD ""
    fuel_bucket := row.fuel_bucket
    technology := technology_value
    capacity_mw := row.capacity_mw
    commission_year := row.commission_year
    closure_year := row.closure_year
    is_cogeneration := is_cogen }

/-- The sort comparator of the candidate pools (source lines 328-335):
ascending by (fuel priority, cogeneration flag, commission year with sentinel
9999, capacity). -/
def candidateLeB (a b : PlantRecord) : Bool :=
  let pa := fuelPriorityOf a.fuel_bucket
  let pb := fuelPriorityOf b.fuel_bucket
  let ga : ℕ := cond a.is_cogeneration 1 0
  let gb : ℕ := cond b.is_cogeneration 1 0
  let ya := a.commission_year.getD 9999
  let yb := b.commission_year.getD 9999
  decide (pa < pb) || (decide (pa = pb)
    && (decide (ga < gb) || (decide (ga = gb)
      && (decide (ya < yb) || (decide (ya = yb)
        && decide (a.capacity_mw ≤ b.capacity_mw))))))

/-- `build_fossil_candidate_pools` (source lines 305-344). -/
def build_fossil_candidate_pools (plants : List PlantsRow) :
    List PlantRecord × List PlantRecord :=
  let fossil_plants := plants.filter (fun p => FOSSIL_FUELS.contains p.fuel_bucket)
  let as_records := fun (df : List PlantsRow) => sortByLe candidateLeB (df.map mkPlantRecord)
  let matchesExcluded := fun (p : PlantsRow) =>
    EXCLUDED_FOSSIL_PATTERNS.any (fun pat => strContainsLower p.name pat)
  let primary := as_records (fossil_plants.filter (fun p => !(matchesExcluded p)))
  let fallback := as_records (fossil_plants.filter (fun p => matchesExcluded p))
  (primary, fallback)

/-- Mutable state of the `consume` closure inside `pick_fossil_closures`. -/
structure PickState where
  closings : List PlantRecord
  total_closed : ℚ
  remaining_needed : ℚ
  closed_ids : Finset ℤ

/-- The `consume` scan over one pool (source lines 364-382). -/
def consumePool (year : ℤ) (capacity_needed : ℚ) : PickState → List PlantRecord → PickState
  | st, [] => st
  | st, record :: rest =>
    if st.remaining_needed ≤ 1/1000000 then st
    else if record.record_id ∈ st.closed_ids then consumePool year capacity_needed st rest
    else if (match record.commission_year with
        | some c => decide (year < c)
        | none => false) then consumePool year capacity_needed st rest
    else if (match record.closure_year with
        | some c => decide (c < year)
        | none => false) then consumePool year capacity_needed st rest
    else if st.remaining_needed + 1/1000000 < record.capacity_mw then
      consumePool year capacity_needed st rest
    else
      let total_closed := st.total_closed + record.capacity_mw
      let remaining_needed := max 0 (capacity_needed - total_closed)
      consumePool year capacity_needed
        { closings := st.closings ++ [record]
          total_closed := total_closed
          remaining_needed := remaining_needed
          closed_ids := insert record.record_id st.closed_ids } rest

/-- `pick_fossil_closures` (source lines 347-389).  The Python function mutates
`closed_ids` in place; the embedding returns the updated set as the third
component. -/
def pick_fossil_closures (year : ℤ) (capacity_needed running_fossil : ℚ)
    (primary_pool fallback_pool : List PlantRecord) (closed_ids : Finset ℤ) :
    List PlantRecord × ℚ × Finset ℤ :=
  if running_fossil ≤ 0 ∨ capacity_needed ≤ 0 then ([], 0, closed_ids)
  else
    let remaining_needed := max capacity_needed 0
    if remaining_needed ≤ 1/1000000 then ([], 0, closed_ids)
    else
      let st0 : PickState := ⟨[], 0, remaining_needed, closed_ids⟩
      let st1 := consumePool year capacity_needed st0 primary_pool
      let st2 :=
        if 1/1000000 < st1.remaining_needed then consumePool year capacity_needed st1 fallback_pool
        else st1
      (st2.closings, min st2.total_closed running_fossil, st2.closed_ids)

/-! ## Capacity ledger (source lines 254-302) -/

/-- One row of a capacity-by-year frame. -/
structure CapRow where
  year : ℤ := 0
  nuclear_mw : ℚ := 0
  fossil_mw : ℚ := 0
  other_mw : ℚ := 0
  total_mw : ℚ := 0
deriving DecidableEq

/-- The activity filter: commissioned by `year` (or unknown) and not closed
before `year` (or never closed). -/
def plantActiveAt (p : PlantsRow) (year : ℤ) : Bool :=
  (match p.commission_year with
    | some c => decide (c ≤ year)
    | none => true)
    && (match p.closure_year with
      | some c => decide (year ≤ c)
      | none => true)

/-- The inclusive year list `range(start_year, end_year + 1)`. -/
def yearRange (start_year end_year : ℤ) : List ℤ :=
  (List.range (end_year + 1 - start_year).toNat).map (fun i : ℕ => start_year + (i : ℤ))

/-- `compute_capacity_by_year` (source lines 254-277). -/
def compute_capacity_by_year (plants : List PlantsRow) (start_year end_year : ℤ) :
    List CapRow :=
  (yearRange start_year end_year).map (fun year =>
    let active := plants.filter (fun p => plantActiveAt p year)
    let nuclear_mw :=
      ((active.filter (fun p => p.fuel_bucket == "nuclear")).map (fun p => p.capacity_mw)).sum
    let fossil_mw :=
      ((active.filter (fun p => FOSSIL_FUELS.contains p.fuel_bucket)).map
        (fun p => p.capacity_mw)).sum
    let other_mw :=
      ((active.filter (fun p =>
        !(FOSSIL_FUELS.contains p.fuel_bucket) && !(p.fuel_bucket == "nuclear"))).map
          (fun p => p.capacity_mw)).sum
    { year := year, nuclear_mw := nuclear_mw, fossil_mw := fossil_mw, other_mw := other_mw
      total_mw := nuclear_mw + fossil_mw + other_mw })

/-- `compute_fossil_breakdown_by_year` (source lines 280-302). -/
def compute_fossil_breakdown_by_year (plants : List PlantsRow) (start_year end_year : ℤ) :
    List (ℤ × FossilCaps) :=
  (yearRange start_year end_year).map (fun year =>
    let active := plants.filter (fun p => plantActiveAt p year)
    let fossil_active := active.filter (fun p => FOSSIL_FUELS.contains p.fuel_bucket)
    (year,
      { hard_coal :=
          ((fossil_active.filter (fun p => p.fuel_bucket == "hard_coal")).map
            (fun p => p.capacity_mw)).sum
        lignite :=
          ((fossil_active.filter (fun p => p.fuel_bucket == "lignite")).map
            (fun p => p.capacity_mw)).sum
        natural_gas :=
          ((fossil_active.filter (fun p => p.fuel_bucket == "natural_gas")).map
            (fun p => p.capacity_mw)).sum
        oil :=
          ((fossil_active.filter (fun p => p.fuel_bucket == "oil")).map
            (fun p => p.capacity_mw)).sum }))

/-! ## Counterfactual simulator (`build_counterfactual_events`, source lines 392-692) -/

/-- One planned-Konvoi entry as produced by `load_planned_konvois`.  That
function reads `planned_konvois.md` (an external input file) and fuzzy-matches
municipalities; its result list is passed in as data here. -/
structure Konvoi where
  site : String
  display : String
  municipality : String
deriving DecidableEq

/-- One event dictionary of the export.  Fields not set by a given event type
keep their defaults, mirroring keys absent from the Python dict. -/
structure Event where
  date : String := ""
  year : ℤ := 0
  site : String := ""
  name : String := ""
  event_type : String := ""
  fuel : String := ""
  mw_added : ℚ := 0
  mw_removed : ℚ := 0
  fossil_capacity_closed_mw : ℚ := 0
  dummy_capacity_closed_mw : ℚ := 0
  dummy_fossil_capacity_closed_mw : ℚ := 0
  running_fossil_mw : ℚ := 0
  running_nuclear_mw : ℚ := 0
  running_total_mw : ℚ := 0
  annual_generation_capacity_twh : ℚ := 0
  fossil_sites_closed : List String := []
  municipality : String := ""
  residual_only : Bool := false
deriving DecidableEq

/-- One counterfactual time-series row; `total_mw` is added after the year loop
(source lines 689-691). -/
structure TsRow where
  year : ℤ := 0
  nuclear_mw : ℚ := 0
  fossil_mw : ℚ := 0
  other_mw : ℚ := 0
  fossil_hard_coal_mw : ℚ := 0
  fossil_lignite_mw : ℚ := 0
  fossil_natural_gas_mw : ℚ := 0
  fossil_oil_mw : ℚ := 0
  total_mw : ℚ := 0
deriving DecidableEq

/-- Last-wins lookup in an insertion-ordered association list (a Python dict
whose later assignments overwrite earlier ones). -/
def lookupLast (m : List (String × String)) (key : String) : Option String :=
  (m.reverse.find? (fun kv => kv.1 == key)).map (fun kv => kv.2)

/-- Python `mapping.get(key, "")` on such a dict. -/
def pyMapGet (m : List (String × String)) (key : String) : String :=
  (lookupLast m key).getD ""

/-- `plant_municipality_map` (source lines 405-412). -/
def plantMunicipalityMap (plants : List PlantsRow) : List (String × String) :=
  plants.foldl (fun acc row =>
    match row.municipality with
    | some m =>
      let name := pyStrip row.name
      let municipality := pyStrip m
      acc ++ [(name, municipality), (name ++ " (" ++ municipality ++ ")", municipality),
        (municipality, municipality)]
    | none => acc) []

/-- `setdefault` + increment of a (count, capacity) stats dict. -/
def bumpStat (key : String) (capacity : ℚ) :
    List (String × ℕ × ℚ) → List (String × ℕ × ℚ)
  | [] => [(key, 1, capacity)]
  | (k, n, c) :: rest =>
    if k = key then (k, n + 1, c + capacity) :: rest
    else (k, n, c) :: bumpStat key capacity rest

/-- `build_municipality_baselines` — the second, overriding definition at
source lines 1123-1148 (the module defines the function twice; the later one is
in effect when `build_counterfactual_events` runs).  Returns the (nuclear,
fossil) municipality stats.  A missing municipality would crash the source
(`None.strip()`); such rows are treated as skipped. -/
def build_municipality_baselines (plants : List PlantsRow) :
    List (String × ℕ × ℚ) × List (String × ℕ × ℚ) :=
  let active_plants := plants.filter (fun p => plantActiveAt p START_YEAR)
  active_plants.foldl (fun acc row =>
    let municipality := pyStrip (row.municipality.getD "")
    if municipality = "" then acc
    else if row.fuel_bucket == "nuclear" then
      (bumpStat municipality row.capacity_mw acc.1, acc.2)
    else if FOSSIL_FUELS.contains row.fuel_bucket then
      (acc.1, bumpStat municipality row.capacity_mw acc.2)
    else acc) ([], [])

/-- `dict.fromkeys`-style dedup preserving first occurrences. -/
def dedupKeepAux (seen : List String) : List String → List String
  | [] => []
  | x :: xs => if seen.contains x then dedupKeepAux seen xs else x :: dedupKeepAux (x :: seen) xs

def dedupKeep (l : List String) : List String := dedupKeepAux [] l

/-- `site_unit_counter` dictionary operations. -/
def counterGet (m : List (String × ℕ)) (key : String) : ℕ :=
  ((m.find? (fun kv => kv.1 == key)).map (fun kv => kv.2)).getD 0

def counterSet (key : String) (v : ℕ) : List (String × ℕ) → List (String × ℕ)
  | [] => [(key, v)]
  | (k, n) :: rest => if k = key then (k, v) :: rest else (k, n) :: counterSet key v rest

/-- The fixed allocation pattern `(True, True, True, False)` (source line 454). -/
def existing_site_pattern : List Bool := [true, true, true, false]

/-- `EVENT_MONTHS.get(units_this_year, [6, 9, 12])` (source lines 24-28, 581). -/
def monthsFor (units_this_year : ℕ) : List ℕ :=
  if units_this_year = 1 then [7]
  else if units_this_year = 2 then [4, 10]
  else if units_this_year = 3 then [3, 7, 11]
  else [6, 9, 12]

/-- `months[min(unit_index, len(months) - 1)]` (source line 582). -/
def monthOf (units_this_year unit_index : ℕ) : ℕ :=
  (monthsFor units_this_year).getD (min unit_index ((monthsFor units_this_year).length - 1)) 0

/-- Zero-padded two-digit month, as `f"{month:02d}"`. -/
def monthStr2 (m : ℕ) : String := if m < 10 then "0" ++ toString m else toString m

/-- `f"{year}-{month_value:02d}-01"` (source line 583). -/
def eventDateOf (year : ℤ) (m : ℕ) : String := toString year ++ "-" ++ monthStr2 m ++ "-01"

/-- The per-closing decrement of the running fossil breakdown
(source lines 595-600). -/
def bdDecrement (bd : FossilCaps) (fuel : String) (dec : ℚ) : FossilCaps :=
  if fuel = "hard_coal" then { bd with hard_coal := max 0 (bd.hard_coal - dec) }
  else if fuel = "lignite" then { bd with lignite := max 0 (bd.lignite - dec) }
  else if fuel = "natural_gas" then { bd with natural_gas := max 0 (bd.natural_gas - dec) }
  else if fuel = "oil" then { bd with oil := max 0 (bd.oil - dec) }
  else bd

/-- Proportional residual allocation over the breakdown (source lines 618-625). -/
def bdProrate (bd : FossilCaps) (dummy : ℚ) : FossilCaps :=
  let total_available := bd.hard_coal + bd.lignite + bd.natural_gas + bd.oil
  if 0 < total_available then
    { hard_coal := max 0 (bd.hard_coal - dummy * (bd.hard_coal / total_available))
      lignite := max 0 (bd.lignite - dummy * (bd.lignite / total_available))
      natural_gas := max 0 (bd.natural_gas - dummy * (bd.natural_gas / total_available))
      oil := max 0 (bd.oil - dummy * (bd.oil / total_available)) }
  else bd

/-- Lexicographic `≤` on `(year, code points of date)` pairs — the prefix of
the Python sort key relevant to chronological order. -/
def keyLe (k1 k2 : ℤ × List ℕ) : Bool :=
  decide (k1.1 < k2.1) || (decide (k1.1 = k2.1) && !(natListLt k2.2 k1.2))

/-- The `(year, date)` key of an event. -/
def cfKey (e : Event) : ℤ × List ℕ := (e.year, strCodes e.date)

/-- Chronological `≤` on events by `(year, date)`. -/
def cfEventLe (a b : Event) : Bool := keyLe (cfKey a) (cfKey b)

/-- The full historical sort key `(item["year"], item["date"],
item.get("name", ""))` of source line 830, as a `≤` comparator. -/
def histFinalLe (a b : Event) : Bool :=
  decide (a.year < b.year) || (decide (a.year = b.year)
    && (natListLt (strCodes a.date) (strCodes b.date)
      || (decide (strCodes a.date = strCodes b.date)
        && !(natListLt (strCodes b.name) (strCodes a.name)))))

/-- Boolean check that a list is chained under a comparator (used to evaluate
chain properties on concrete event lists). -/
def chainLeB {α : Type} (le : α → α → Bool) : List α → Bool
  | [] => true
  | [_] => true
  | a :: b :: l => le a b && chainLeB le (b :: l)

/-- Invariant of the accumulated event list: chronologically chained, and every
event key at most `k`. -/
def EvOkB (l : List Event) (k : ℤ × List ℕ) : Prop :=
  List.Chain' (fun a b => cfEventLe a b = true) l ∧ ∀ e ∈ l, keyLe (cfKey e) k = true

/-- Year-level form of the invariant: chained, and every event year at most
`y`. -/
def EvOkYearB (l : List Event) (y : ℤ) : Prop :=
  List.Chain' (fun a b => cfEventLe a b = true) l ∧ ∀ e ∈ l, e.year ≤ y

/-- The loop over concrete closings (source lines 588-615), threading the
remaining fossil capacity and the breakdown; the residual is stacked onto the
last closing. -/
def closureLoop (event_date : String) (year : ℤ) (fossil_floor_mw dummy_to_allocate : ℚ) :
    List PlantRecord → ℚ → FossilCaps → List Event × ℚ × FossilCaps
  | [], remaining, bd => ([], remaining, bd)
  | closing :: rest, remaining, bd =>
    let extra_dummy := if rest.isEmpty && decide (0 < dummy_to_allocate) then dummy_to_allocate
      else 0
    let decrement := closing.capacity_mw + extra_dummy
    let remaining1 := max (remaining - decrement) fossil_floor_mw
    let bd1 := bdDecrement bd closing.fuel_bucket decrement
    let entry : Event :=
      { date := event_date
        year := year
        site := if closing.municipality ≠ "" then closing.municipality else closing.descriptor
        name := closing.descriptor
        event_type := "fossil_closure"
        fuel := closing.fuel_bucket
        mw_removed := round1 closing.capacity_mw
        fossil_capacity_closed_mw := round1 (closing.capacity_mw + extra_dummy)
        dummy_capacity_closed_mw := if extra_dummy ≠ 0 then round1 extra_dummy else 0
        running_fossil_mw := round1 remaining1
        municipality := closing.municipality }
    let out := closureLoop event_date year fossil_floor_mw dummy_to_allocate rest remaining1 bd1
    (entry :: out.1, out.2.1, out.2.2)

/-- The synthetic residual-fleet closure entry (source lines 626-641). -/
def residualEntry (event_date : String) (year : ℤ) (dummy remaining : ℚ) : Event :=
  { date := event_date
    year := year
    site := "Residual fossil fleet"
    name := "Residual fossil fleet"
    event_type := "fossil_closure"
    fuel := "fossil"
    mw_removed := 0
    fossil_capacity_closed_mw := round1 dummy
    dummy_capacity_closed_mw := round1 dummy
    running_fossil_mw := round1 remaining
    municipality := ""
    residual_only := true }

/-- The closure-entry block of one unit event (source lines 585-642): the loop
over concrete closings, or a synthetic residual-fleet entry, or nothing.
Returns (entries, remaining fossil, breakdown, fossil_sites_closed). -/
def closureEntriesOf (event_date : String) (year : ℤ)
    (fossil_floor_mw residual_closure_mw fossil_before_closure : ℚ) (bd : FossilCaps)
    (fossil_sites_closed0 : List String) (closings : List PlantRecord) :
    List Event × ℚ × FossilCaps × List String :=
  if closings.isEmpty then
    if 0 < residual_closure_mw then
      let remaining := max (fossil_before_closure - residual_closure_mw) fossil_floor_mw
      ([residualEntry event_date year residual_closure_mw remaining], remaining,
        bdProrate bd residual_closure_mw, fossil_sites_closed0 ++ ["Residual fossil fleet"])
    else ([], fossil_before_closure, bd, fossil_sites_closed0)
  else
    let out := closureLoop event_date year fossil_floor_mw residual_closure_mw closings
      fossil_before_closure bd
    (out.1, out.2.1, out.2.2, fossil_sites_closed0)

/-- Derived, loop-invariant inputs of the simulator. -/
structure SimCtx where
  actual_capacity : List CapRow
  primary_pool : List PlantRecord
  fallback_pool : List PlantRecord
  planned_konvois : List Konvoi
  plant_muni_map : List (String × String)
  existing_nuclear_sites : List String
  baseline_existing_sites : List String

/-- The mutable state of the year/unit loop. -/
structure SimState where
  running_nuclear : ℚ
  running_fossil : ℚ
  bd : FossilCaps
  closed_record_ids : Finset ℤ
  nuclear_build_count : ℕ
  post_planned_allocation_index : ℕ
  site_unit_counter : List (String × ℕ)
  events : List Event
  timeseries : List TsRow

/-- `choose_existing_municipality` (source lines 457-463): the baseline site
with the fewest allocated units, ties broken by the smaller name (Python `min`
over `(count, key)` keeps the first minimum). -/
def chooseExistingMunicipality (ctx : SimCtx) (st : SimState) : Option String :=
  match ctx.baseline_existing_sites with
  | [] => none
  | s :: rest => some (rest.foldl (fun best cand =>
      let cb := counterGet st.site_unit_counter best
      let cc := counterGet st.site_unit_counter cand
      if cc < cb || (cc == cb && natListLt (strCodes cand) (strCodes best)) then cand
      else best) s)

/-- `.loc` lookup of the actual-capacity row for a year, falling back to the
last row when the year is absent (source lines 473-477). -/
def yearCapRow (cap : List CapRow) (year : ℤ) : CapRow :=
  match cap.find? (fun r => r.year == year) with
  | some r => r
  | none => cap.getLastD {}

/-- `actual_capacity["year"].max()` (0 on an empty frame, where the source
would produce NaN). -/
def maxYearOf : List CapRow → ℤ
  | [] => 0
  | r :: rest => rest.foldl (fun m x => max m x.year) r.year

/-- The `other_mw` lookup of the yearly snapshot row (source lines 674-680);
an absent year would raise in the source and yields 0 here. -/
def tsOtherLookup (cap : List CapRow) (year : ℤ) : ℚ :=
  match cap.find? (fun r => r.year == min year (maxYearOf cap)) with
  | some r => r.other_mw
  | none => 0

/-- One iteration of the unit loop (source lines 486-667). -/
def simUnit (ctx : SimCtx) (year : ℤ) (units_this_year : ℕ)
    (year_other_capacity year_total_requirement : ℚ) (unit_index : ℕ) (st : SimState) :
    SimState :=
  let capacity_added :=
    NUCLEAR_CAPACITY_SEQUENCE.getD (st.nuclear_build_count % NUCLEAR_CAPACITY_SEQUENCE.length) 0
  let other_capacity := year_other_capacity
  let actual_total_mw := year_total_requirement
  let fossil_before_closure := st.running_fossil
  let nuclear_after := st.running_nuclear + capacity_added
  let fossil_floor_mw := max 0 (actual_total_mw - (nuclear_after + other_capacity))
  let allowed_shutdown_mw := max 0 (fossil_before_closure - fossil_floor_mw)
  let closure_target_mw0 := min capacity_added allowed_shutdown_mw
  let pick :=
    if 0 < closure_target_mw0 then
      pick_fossil_closures year closure_target_mw0 st.running_fossil ctx.primary_pool
        ctx.fallback_pool st.closed_record_ids
    else ([], 0, st.closed_record_ids)
  let rolled := decide (closure_target_mw0 + 1/1000000 < pick.2.1)
  let closings := if rolled then [] else pick.1
  let fossil_closed := if rolled then 0 else pick.2.1
  let closed_ids1 :=
    if rolled then pick.1.foldl (fun s r => s.erase r.record_id) pick.2.2 else pick.2.2
  let closure_target_mw := if rolled then 0 else closure_target_mw0
  let running_nuclear := st.running_nuclear + capacity_added
  let residual_closure_mw :=
    if 0 < closure_target_mw ∧ fossil_closed < closure_target_mw then
      closure_target_mw - fossil_closed
    else 0
  let planned_site := ctx.planned_konvois.get? st.nuclear_build_count
  let alloc :=
    match planned_site with
    | some ps => (pyStrip ps.display, pyStrip ps.municipality, st.post_planned_allocation_index)
    | none =>
      let prefer_existing :=
        existing_site_pattern.getD
          (st.post_planned_allocation_index % existing_site_pattern.length) false
      let post_idx := st.post_planned_allocation_index + 1
      if prefer_existing then
        match chooseExistingMunicipality ctx st with
        | some chosen => (chosen, chosen, post_idx)
        | none => ("", "", post_idx)
      else ("", "", post_idx)
  let site_label0 := alloc.1
  let site_municipality0 := alloc.2.1
  let post_idx1 := alloc.2.2
  let fallbackAlloc :=
    if site_label0 = "" then
      match closings with
      | primary_closing :: _ =>
        let m0 := pyStrip primary_closing.municipality
        let descriptor_label := pyStrip primary_closing.descriptor
        let mapped_municipality := pyStrip (pyMapGet ctx.plant_muni_map descriptor_label)
        let m1 := if m0 = "" ∧ mapped_municipality ≠ "" then mapped_municipality else m0
        (if m1 ≠ "" then m1 else descriptor_label, m1)
      | [] =>
        let site_choice := ctx.existing_nuclear_sites.getD
          (st.nuclear_build_count % ctx.existing_nuclear_sites.length) ""
        let mapped_municipality := pyStrip (pyMapGet ctx.plant_muni_map site_choice)
        (if mapped_municipality ≠ "" then mapped_municipality else pyStrip site_choice,
          mapped_municipality)
    else (site_label0, site_municipality0)
  let site_label1 := fallbackAlloc.1
  let site_municipality1 := fallbackAlloc.2
  let site_label2 :=
    if site_label1 = "" then
      (if site_municipality1 ≠ "" then site_municipality1 else "New Nuclear Complex")
    else site_label1
  let site_municipality2 :=
    if site_municipality1 = "" then pyStrip (pyMapGet ctx.plant_muni_map site_label2)
    else site_municipality1
  let counter_key := if site_municipality2 ≠ "" then site_municipality2 else site_label2
  let current_units := counterGet st.site_unit_counter counter_key + 1
  let counter1 := counterSet counter_key current_units st.site_unit_counter
  let unit_name := "Unit " ++ toString current_units
  let month_value := monthOf units_this_year unit_index
  let event_date := eventDateOf year month_value
  let fossil_sites_closed0 := closings.map (fun closing => closing.descriptor)
  let closuresOut := closureEntriesOf event_date year fossil_floor_mw residual_closure_mw
    fossil_before_closure st.bd fossil_sites_closed0 closings
  let closure_entries := closuresOut.1
  let remaining1 := closuresOut.2.1
  let bd1 := closuresOut.2.2.1
  let fossil_sites_closed1 := closuresOut.2.2.2
  let running_fossil1 := max remaining1 fossil_floor_mw
  let running_total := running_nuclear + running_fossil1 + other_capacity
  let actual_closed_mw := fossil_closed + residual_closure_mw
  let build_event : Event :=
    { date := event_date
      year := year
      site := site_label2
      name := site_label2 ++ " " ++ unit_name
      event_type := "nuclear_build"
      mw_added := round1 capacity_added
      running_nuclear_mw := round1 running_nuclear
      running_fossil_mw := round1 running_fossil1
      running_total_mw := round1 running_total
      fossil_sites_closed := fossil_sites_closed1
      fossil_capacity_closed_mw := round1 actual_closed_mw
      dummy_fossil_capacity_closed_mw := round1 residual_closure_mw
      annual_generation_capacity_twh := round2 (running_total * HOURS_PER_YEAR / 1000000)
      municipality := site_municipality2 }
  { running_nuclear := running_nuclear
    running_fossil := running_fossil1
    bd := bd1
    closed_record_ids := closed_ids1
    nuclear_build_count := st.nuclear_build_count + 1
    post_planned_allocation_index := post_idx1
    site_unit_counter := counter1
    events := st.events ++ closure_entries ++ [build_event]
    timeseries := st.timeseries }

/-- `units_this_year` (source lines 481-485): zero before the build-start
year, else the repeating 2-then-1 pattern. -/
def unitsForYear (year : ℤ) : ℕ :=
  if year < BUILD_START_YEAR then 0
  else UNITS_PER_YEAR_PATTERN.getD
    (((year - BUILD_START_YEAR) % (UNITS_PER_YEAR_PATTERN.length : ℤ)).toNat) 0

/-- One iteration of the year loop (source lines 472-686): the year's units
followed by the yearly snapshot row. -/
def simYear (ctx : SimCtx) (year : ℤ) (st : SimState) : SimState :=
  let row := yearCapRow ctx.actual_capacity year
  let year_other_capacity := row.other_mw
  let year_total_requirement := row.total_mw
  let units_this_year : ℕ := unitsForYear year
  let st1 := (List.range units_this_year).foldl
    (fun s unit_index =>
      simUnit ctx year units_this_year year_other_capacity year_total_requirement unit_index s)
    st
  let ts_row : TsRow :=
    { year := year
      nuclear_mw := round1 st1.running_nuclear
      fossil_mw := round1 st1.running_fossil
      other_mw := tsOtherLookup ctx.actual_capacity year
      fossil_hard_coal_mw := round1 st1.bd.hard_coal
      fossil_lignite_mw := round1 st1.bd.lignite
      fossil_natural_gas_mw := round1 st1.bd.natural_gas
      fossil_oil_mw := round1 st1.bd.oil }
  { st1 with timeseries := st1.timeseries ++ [ts_row] }

/-- Pre-loop setup of `build_counterfactual_events` (source lines 398-470):
baseline running totals, candidate pools, municipality map, baseline breakdown,
site lists and unit counters. -/
def mkSimCtx (plants : List PlantsRow) (actual_capacity : List CapRow)
    (start_year end_year : ℤ) (planned_konvois : List Konvoi) : SimCtx × SimState :=
  let capacity_with_baseline := compute_capacity_by_year plants start_year end_year
  let baseline_row := (capacity_with_baseline.find? (fun r => r.year == start_year)).getD {}
  let pools := build_fossil_candidate_pools plants
  let pm_map := plantMunicipalityMap plants
  let baseline_breakdown := compute_fossil_breakdown_by_year plants start_year start_year
  let bd0 : FossilCaps :=
    match baseline_breakdown with
    | [] => {}
    | r :: _ => r.2
  let sites0 := (plants.filter (fun p => p.fuel_bucket == "nuclear")).map (fun p => p.name)
  let existing_nuclear_sites := if sites0.isEmpty then ["Generic Nuclear Complex"] else sites0
  let muni_baselines := (build_municipality_baselines plants).1
  let folded := muni_baselines.foldl (fun acc kv =>
      let raw_key := kv.1
      let canonical0 :=
        pyStrip (let g := pyMapGet pm_map raw_key; if g ≠ "" then g else raw_key)
      let canonical := if canonical0 = "" then raw_key else canonical0
      (acc.1 ++ [canonical],
        counterSet canonical (counterGet acc.2 canonical + kv.2.1) acc.2))
    (([] : List String), ([] : List (String × ℕ)))
  let baseline_existing_sites :=
    if folded.1.isEmpty then
      ((existing_nuclear_sites.map (fun name =>
          pyStrip (let g := pyMapGet pm_map name; if g ≠ "" then g else name))).filter
        (fun label => label ≠ ""))
    else dedupKeep folded.1
  (⟨actual_capacity, pools.1, pools.2, planned_konvois, pm_map, existing_nuclear_sites,
      baseline_existing_sites⟩,
    ⟨baseline_row.nuclear_mw, baseline_row.fossil_mw, bd0, ∅, 0, 0, folded.2, [], []⟩)

/-- The whole year loop as a fold, returning the final state. -/
def simRun (plants : List PlantsRow) (actual_capacity : List CapRow)
    (start_year end_year : ℤ) (planned_konvois : List Konvoi) : SimCtx × SimState :=
  let init := mkSimCtx plants actual_capacity start_year end_year planned_konvois
  (init.1, (yearRange start_year end_year).foldl (fun st year => simYear init.1 year st) init.2)

/-- `build_counterfactual_events`: the event list and the capacity time series
(with the `total_mw` column added at the end, source lines 688-692).  The
planned-Konvoi list, loaded from a file by `load_planned_konvois` in the
source, is passed in as data. -/
def build_counterfactual_events (plants : List PlantsRow) (actual_capacity : List CapRow)
    (start_year end_year : ℤ) (planned_konvois : List Konvoi) : List Event × List TsRow :=
  let st := (simRun plants actual_capacity start_year end_year planned_konvois).2
  (st.events,
    st.timeseries.map (fun r =>
      { r with total_mw := r.nuclear_mw + r.fossil_mw + r.other_mw }))

/-! ## Historical events (`build_historical_events`, source lines 734-831) -/

/-- One row of the fossil-builds table (`fossil_construction_..._bnetza.csv`);
the loader guarantees names, other string columns keep their
`isinstance(..., str)` guards as `Option`s. -/
structure BuildsRow where
  name : String
  site : Option String
  ftype : Option String
  municipality : Option String
  capacity_mw : ℚ
  commission_year : Option ℤ
deriving DecidableEq

/-- pandas ascending order on a nullable integer column (`NaN` sorts last). -/
def optIntLt (a b : Option ℤ) : Bool :=
  match a, b with
  | none, _ => false
  | some _, none => true
  | some x, some y => decide (x < y)

/-- pandas ascending order on a nullable string column (`NaN` sorts last). -/
def optStrLt (a b : Option String) : Bool :=
  match a, b with
  | none, _ => false
  | some _, none => true
  | some x, some y => natListLt (strCodes x) (strCodes y)

/-- `builds.sort_values(["commission_year", "site", "name"])` comparator. -/
def buildsSortLe (a b : BuildsRow) : Bool :=
  optIntLt a.commission_year b.commission_year
    || (decide (a.commission_year = b.commission_year)
      && (optStrLt a.site b.site
        || (decide (a.site = b.site)
          && !(natListLt (strCodes b.name) (strCodes a.name)))))

/-- `closures.sort_values(["closure_year", "commission_year", "name"])`
comparator. -/
def closuresSortLe (a b : PlantsRow) : Bool :=
  optIntLt a.closure_year b.closure_year
    || (decide (a.closure_year = b.closure_year)
      && (optIntLt a.commission_year b.commission_year
        || (decide (a.commission_year = b.commission_year)
          && !(natListLt (strCodes b.name) (strCodes a.name)))))

/-- `dict.get(year, dict[max(dict)])` over the capacity rows (ascending years),
projecting `fossil_mw`. -/
def capDictFossil (rows : List CapRow) (year : ℤ) : ℚ :=
  match rows.find? (fun r => r.year == year) with
  | some r => r.fossil_mw
  | none => (rows.getLastD {}).fossil_mw

/-- Same lookup projecting `nuclear_mw`. -/
def capDictNuclear (rows : List CapRow) (year : ℤ) : ℚ :=
  match rows.find? (fun r => r.year == year) with
  | some r => r.nuclear_mw
  | none => (rows.getLastD {}).nuclear_mw

/-- `build_historical_events` (source lines 734-831): fossil builds, fossil
closures and nuclear closures in the year window, sorted at the end by
`(year, date, name)`. -/
def build_historical_events (fossil_builds : List BuildsRow) (plants : List PlantsRow)
    (start_year end_year : ℤ) : List Event :=
  let builds := fossil_builds.filter (fun b =>
    match b.commission_year with
    | some y => decide (start_year ≤ y) && decide (y ≤ end_year)
    | none => false)
  let builds := sortByLe buildsSortLe builds
  let running_totals := compute_capacity_by_year plants (start_year - 1) end_year
  let build_events := builds.map (fun row =>
    let year := row.commission_year.getD 0
    let running_fossil := capDictFossil running_totals year
    let municipality := row.municipality.getD ""
    let site_label :=
      if municipality ≠ "" then municipality
      else match row.site with
        | some s => s
        | none => row.name
    let ev : Event :=
      { date := toString year ++ "-07-01", year := year, site := site_label, name := row.name,
        event_type := "fossil_build", fuel := row.ftype.getD "fossil",
        mw_added := round1 row.capacity_mw, running_fossil_mw := round1 running_fossil,
        municipality := municipality }
    ev)
  let closures := plants.filter (fun p =>
    FOSSIL_FUELS.contains p.fuel_bucket
      && (match p.closure_year with
        | some y => decide (start_year ≤ y) && decide (y ≤ end_year)
        | none => false))
  let closures := sortByLe closuresSortLe closures
  let closure_events := closures.map (fun row =>
    let year := row.closure_year.getD 0
    let running_fossil := capDictFossil running_totals year
    let municipality := row.municipality.getD ""
    let site_label := if municipality ≠ "" then municipality else row.name
    let ev : Event :=
      { date := toString year ++ "-11-01", year := year, site := site_label, name := row.name,
        event_type := "fossil_closure", fuel := row.fuel_bucket,
        mw_removed := round1 row.capacity_mw, running_fossil_mw := round1 running_fossil,
        municipality := municipality }
    ev)
  let nuclear_closures := plants.filter (fun p =>
    p.fuel_bucket == "nuclear"
      && (match p.closure_year with
        | some y => decide (start_year ≤ y) && decide (y ≤ end_year)
        | none => false))
  let nuclear_closures := sortByLe closuresSortLe nuclear_closures
  let nuclear_events := nuclear_closures.map (fun row =>
    let year := row.closure_year.getD 0
    let running_nuclear_before := capDictNuclear running_totals year
    let running_nuclear_after := max (running_nuclear_before - row.capacity_mw) 0
    let municipality := row.municipality.getD ""
    let site_label := if municipality ≠ "" then municipality else row.name
    let ev : Event :=
      { date := toString year ++ "-11-15", year := year, site := site_label, name := row.name,
        event_type := "nuclear_closure", fuel := "nuclear",
        mw_removed := round1 row.capacity_mw,
        running_nuclear_mw := round1 running_nuclear_after,
        municipality := municipality }
    ev)
  sortByLe histFinalLe (build_events ++ closure_events ++ nuclear_events)

/-- The three candidate plants of the C3 scenario. -/
def rowPlantA : PlantsRow := ⟨0, "A", none, "lignite", some "steam", 200, some 1980, none⟩

def rowPlantB : PlantsRow := ⟨1, "B", none, "natural_gas", some "steam", 150, some 1995, none⟩

def rowPlantC : PlantsRow := ⟨2, "C", none, "oil", some "steam", 50, some 1970, some 2000⟩

def plantsC3 : List PlantsRow := [rowPlantA, rowPlantB, rowPlantC]

/-- C4 counterexample input: one 100 MW fossil plant, but an actual capacity
requirement of 1000 MW already in the baseline year (which builds no units). -/
def plantsC4x : List PlantsRow := [⟨0, "F", none, "lignite", some "steam", 100, some 1980, none⟩]

def capsC4x : List CapRow := [{ year := 1989, total_mw := 1000 }]

/-- Small two-plant registry for concrete simulator runs: one baseline nuclear
plant in municipality "Aaa" and one closable lignite plant named "Zzz". -/
def plantsSimW : List PlantsRow :=
  [⟨0, "NPP", some "Aaa", "nuclear", some "pwr", 1000, some 1970, none⟩,
    ⟨1, "Zzz", some "Zzz-town", "lignite", some "steam", 1000, some 1980, none⟩]

def capsSimW : List CapRow :=
  [{ year := 1989, nuclear_mw := 1000, fossil_mw := 1000, total_mw := 2000 },
    { year := 1990, nuclear_mw := 1000, fossil_mw := 1000, total_mw := 2000 }]

/-! ## Proofs: rounding -/

theorem floor_le_roundHalfEven (x : ℚ) : ⌊x⌋ ≤ roundHalfEven x := by
  simp only [roundHalfEven]
  split_ifs <;> omega

theorem roundHalfEven_le_floor_add_one (x : ℚ) : roundHalfEven x ≤ ⌊x⌋ + 1 := by
  simp only [roundHalfEven]
  split_ifs <;> omega

theorem abs_roundHalfEven_sub (x : ℚ) : |(roundHalfEven x : ℚ) - x| ≤ 1/2 := by
  have h1 := Int.floor_le x
  have h2 := Int.lt_floor_add_one x
  simp only [roundHalfEven]
  split_ifs with ha hb hc <;> (rw [abs_le]; push_cast; constructor <;> linarith)

theorem roundHalfEven_mono {x y : ℚ} (h : x ≤ y) : roundHalfEven x ≤ roundHalfEven y := by
  rcases lt_or_eq_of_le (Int.floor_le_floor h) with hf | hf
  · calc roundHalfEven x ≤ ⌊x⌋ + 1 := roundHalfEven_le_floor_add_one x
      _ ≤ ⌊y⌋ := by omega
      _ ≤ roundHalfEven y := floor_le_roundHalfEven y
  · simp only [roundHalfEven, ← hf]
    split_ifs <;> first | omega | linarith

theorem round2_mono {x y : ℚ} (h : x ≤ y) : round2 x ≤ round2 y := by
  unfold round2
  have hm : (roundHalfEven (100 * x) : ℚ) ≤ (roundHalfEven (100 * y) : ℚ) := by
    exact_mod_cast roundHalfEven_mono (by linarith)
  linarith

theorem abs_round2_sub (x : ℚ) : |round2 x - x| ≤ 1/200 := by
  unfold round2
  have h := abs_roundHalfEven_sub (100 * x)
  rw [abs_le] at h ⊢
  constructor <;> linarith

theorem round2_sum3 (a b c : ℚ) :
    |round2 (a + b + c) - (round2 a + round2 b + round2 c)| ≤ 1/50 := by
  have h0 := abs_round2_sub (a + b + c)
  have h1 := abs_round2_sub a
  have h2 := abs_round2_sub b
  have h3 := abs_round2_sub c
  rw [abs_le] at h0 h1 h2 h3 ⊢
  constructor <;> linarith

theorem add_max_sub_zero (p t : ℚ) : p + max (t - p) 0 = max t p := by
  rcases le_total p t with h | h
  · rw [max_eq_left (by linarith), max_eq_left h]; ring
  · rw [max_eq_right (by linarith), max_eq_right h]; ring

/-! ## Proofs: the per-row step -/

theorem emissionsStep_recA (E : EmEnv) (b f : ℚ) (fr : GenRow) (p : ℚ) (d : GenRow) :
    (emissionsStep E b f fr p d).recA = actualRecordOf d := rfl

theorem emissionsStep_actualTotal (E : EmEnv) (b f : ℚ) (fr : GenRow) (p : ℚ) (d : GenRow) :
    (emissionsStep E b f fr p d).actualTotal = fossilTwhOf d + d.nuclear + renewablesTwhOf d := rfl

theorem emissionsStep_cfNuclear (E : EmEnv) (b f : ℚ) (fr : GenRow) (p : ℚ) (d : GenRow) :
    (emissionsStep E b f fr p d).cfNuclear = max p (availableMaxNuclearTwh E b d.year) := rfl

theorem emissionsStep_newPrev (E : EmEnv) (b f : ℚ) (fr : GenRow) (p : ℚ) (d : GenRow) :
    (emissionsStep E b f fr p d).newPrev = (emissionsStep E b f fr p d).cfNuclear := rfl

theorem emissionsStep_cfRenew (E : EmEnv) (b f : ℚ) (fr : GenRow) (p : ℚ) (d : GenRow) :
    (emissionsStep E b f fr p d).cfRenew
      = if d.year < RENEWABLE_FREEZE_YEAR then renewablesTwhOf d else f := rfl

theorem emissionsStep_cfFossilRequired (E : EmEnv) (b f : ℚ) (fr : GenRow) (p : ℚ) (d : GenRow) :
    (emissionsStep E b f fr p d).cfFossilRequired
      = max ((emissionsStep E b f fr p d).actualTotal
          - ((emissionsStep E b f fr p d).cfNuclear + (emissionsStep E b f fr p d).cfRenew + 0)) 0 :=
  rfl

theorem emissionsStep_cfTotal (E : EmEnv) (b f : ℚ) (fr : GenRow) (p : ℚ) (d : GenRow) :
    (emissionsStep E b f fr p d).cfTotal
      = (emissionsStep E b f fr p d).cfNuclear + (emissionsStep E b f fr p d).cfRenew + 0
        + (emissionsStep E b f fr p d).cfFossilRequired := rfl

theorem emissionsStep_cfFossilFinal (E : EmEnv) (b f : ℚ) (fr : GenRow) (p : ℚ) (d : GenRow) :
    (emissionsStep E b f fr p d).cfFossilFinal
      = (fossilSplit E d (emissionsStep E b f fr p d).cfFossilRequired).2.2.2 := rfl

theorem emissionsStep_recC_of_le (E : EmEnv) (b f : ℚ) (fr : GenRow) (p : ℚ) (d : GenRow)
    (h : d.year ≤ START_YEAR) :
    (emissionsStep E b f fr p d).recC = actualRecordOf d := by
  simp only [emissionsStep]
  rw [if_pos h]

theorem emissionsStep_recC_year (E : EmEnv) (b f : ℚ) (fr : GenRow) (p : ℚ) (d : GenRow) :
    (emissionsStep E b f fr p d).recC.year = d.year := by
  simp only [emissionsStep]
  split_ifs <;> rfl

theorem emissionsStep_recC_total_of_gt (E : EmEnv) (b f : ℚ) (fr : GenRow) (p : ℚ) (d : GenRow)
    (h : START_YEAR < d.year) :
    (emissionsStep E b f fr p d).recC.total_twh = round2 (emissionsStep E b f fr p d).cfTotal := by
  simp only [emissionsStep]
  rw [if_neg (by omega)]

theorem emissionsStep_recC_nuclear_of_gt (E : EmEnv) (b f : ℚ) (fr : GenRow) (p : ℚ) (d : GenRow)
    (h : START_YEAR < d.year) :
    (emissionsStep E b f fr p d).recC.nuclear_twh
      = round2 (emissionsStep E b f fr p d).cfNuclear := by
  simp only [emissionsStep]
  rw [if_neg (by omega)]

theorem emissionsStep_recC_renew_of_gt (E : EmEnv) (b f : ℚ) (fr : GenRow) (p : ℚ) (d : GenRow)
    (h : START_YEAR < d.year) :
    (emissionsStep E b f fr p d).recC.renewables_twh
      = round2 (emissionsStep E b f fr p d).cfRenew := by
  simp only [emissionsStep]
  rw [if_neg (by omega)]

theorem emissionsStep_recC_fossil_of_gt (E : EmEnv) (b f : ℚ) (fr : GenRow) (p : ℚ) (d : GenRow)
    (h : START_YEAR < d.year) :
    (emissionsStep E b f fr p d).recC.fossil_twh
      = round2 (emissionsStep E b f fr p d).cfFossilFinal := by
  simp only [emissionsStep]
  rw [if_neg (by omega)]

/-! ## Proofs: the trace -/

theorem emissionsTrace_length (E : EmEnv) (b f : ℚ) (fr : GenRow) :
    ∀ (rows : List GenRow) (prev : ℚ),
      (emissionsTrace E b f fr rows prev).length = rows.length := by
  intro rows
  induction rows with
  | nil => intro prev; rfl
  | cons r rs ih => intro prev; simp only [emissionsTrace, List.length_cons, ih]

theorem emissionsTraceTop_length (E : EmEnv) (rows : List GenRow) :
    (emissionsTraceTop E rows).length = rows.length :=
  emissionsTrace_length E _ _ _ rows _

theorem emissionsTrace_getElem (E : EmEnv) (b f : ℚ) (fr : GenRow) :
    ∀ (rows : List GenRow) (prev : ℚ) (i : ℕ)
      (h1 : i < (emissionsTrace E b f fr rows prev).length) (h2 : i < rows.length),
      ∃ p, (emissionsTrace E b f fr rows prev)[i] = emissionsStep E b f fr p rows[i] := by
  intro rows
  induction rows with
  | nil => intro prev i h1 h2; simp at h2
  | cons r rs ih =>
    intro prev i h1 h2
    match i with
    | 0 => exact ⟨prev, rfl⟩
    | Nat.succ j =>
      have h1' : j < (emissionsTrace E b f fr rs
          (emissionsStep E b f fr prev r).newPrev).length := by
        rw [emissionsTrace_length] at h1 ⊢
        simpa using h1
      have h2' : j < rs.length := by simpa using h2
      obtain ⟨p, hp⟩ := ih (emissionsStep E b f fr prev r).newPrev j h1' h2'
      refine ⟨p, ?_⟩
      simpa [emissionsTrace] using hp

theorem emissionsTrace_getElem_succ (E : EmEnv) (b f : ℚ) (fr : GenRow) :
    ∀ (rows : List GenRow) (prev : ℚ) (i : ℕ)
      (h0 : i < (emissionsTrace E b f fr rows prev).length)
      (h1 : i + 1 < (emissionsTrace E b f fr rows prev).length)
      (h2 : i + 1 < rows.length),
      (emissionsTrace E b f fr rows prev)[i + 1]
        = emissionsStep E b f fr ((emissionsTrace E b f fr rows prev)[i]).newPrev
            rows[i + 1] := by
  intro rows
  induction rows with
  | nil => intro prev i h0 h1 h2; simp at h2
  | cons r rs ih =>
    intro prev i h0 h1 h2
    match i with
    | 0 =>
      have h2' : 0 < rs.length := by simpa using h2
      match rs, h2' with
      | r2 :: rs2, _ => simp [emissionsTrace]
    | Nat.succ j =>
      have hl0 : j < (emissionsTrace E b f fr rs
          (emissionsStep E b f fr prev r).newPrev).length := by
        rw [emissionsTrace_length] at h0 ⊢
        simpa using h0
      have hl1 : j + 1 < (emissionsTrace E b f fr rs
          (emissionsStep E b f fr prev r).newPrev).length := by
        rw [emissionsTrace_length] at h1 ⊢
        simpa using h1
      have hl2 : j + 1 < rs.length := by simpa using h2
      have := ih (emissionsStep E b f fr prev r).newPrev j hl0 hl1 hl2
      simpa [emissionsTrace] using this

theorem emissionsTraceTop_getElem (E : EmEnv) (rows : List GenRow) (i : ℕ)
    (h1 : i < (emissionsTraceTop E rows).length) (h2 : i < rows.length) :
    ∃ p, (emissionsTraceTop E rows)[i]
      = emissionsStep E (baselineRowOf rows).nuclear (renewablesTwhOf (freezeRowOf rows))
          (freezeRowOf rows) p rows[i] :=
  emissionsTrace_getElem E _ _ _ rows _ i h1 h2

theorem emissionsTraceTop_getElem_succ (E : EmEnv) (rows : List GenRow) (i : ℕ)
    (h0 : i < (emissionsTraceTop E rows).length)
    (h1 : i + 1 < (emissionsTraceTop E rows).length)
    (h2 : i + 1 < rows.length) :
    (emissionsTraceTop E rows)[i + 1]
      = emissionsStep E (baselineRowOf rows).nuclear (renewablesTwhOf (freezeRowOf rows))
          (freezeRowOf rows) ((emissionsTraceTop E rows)[i]).newPrev rows[i + 1] :=
  emissionsTrace_getElem_succ E _ _ _ rows _ i h0 h1 h2

theorem actualRecordOf_year (d : GenRow) : (actualRecordOf d).year = d.year := rfl

theorem actualRecordOf_total (d : GenRow) :
    (actualRecordOf d).total_twh = round2 (fossilTwhOf d + d.nuclear + renewablesTwhOf d) := rfl

theorem actualRecordOf_fossil (d : GenRow) :
    (actualRecordOf d).fossil_twh = round2 (fossilTwhOf d) := rfl

theorem actualRecordOf_nuclear (d : GenRow) :
    (actualRecordOf d).nuclear_twh = round2 d.nuclear := rfl

theorem actualRecordOf_renew (d : GenRow) :
    (actualRecordOf d).renewables_twh = round2 (renewablesTwhOf d) := rfl

theorem emissionsStep_recC_renew_frozen (E : EmEnv) (b f : ℚ) (fr : GenRow) (p : ℚ) (d : GenRow)
    (h : RENEWABLE_FREEZE_YEAR ≤ d.year) :
    (emissionsStep E b f fr p d).recC.renewables_twh = round2 f := by
  rw [emissionsStep_recC_renew_of_gt E b f fr p d
    (by simp only [RENEWABLE_FREEZE_YEAR] at h; simp only [START_YEAR]; omega)]
  rw [emissionsStep_cfRenew, if_neg (by omega)]

/-! ## Proofs: lexicographic code-point order -/

theorem natListLt_irrefl : ∀ x, natListLt x x = false := by
  intro x
  induction x with
  | nil => rfl
  | cons a as ih => simp [natListLt, ih]

theorem natListLt_trans : ∀ x y z, natListLt x y = true → natListLt y z = true →
    natListLt x z = true := by
  intro x
  induction x with
  | nil =>
    intro y z hxy hyz
    cases y with
    | nil => simp [natListLt] at hxy
    | cons b bs =>
      cases z with
      | nil => simp [natListLt] at hyz
      | cons c cs => simp [natListLt]
  | cons a as ih =>
    intro y z hxy hyz
    cases y with
    | nil => simp [natListLt] at hxy
    | cons b bs =>
      cases z with
      | nil => simp [natListLt] at hyz
      | cons c cs =>
        simp only [natListLt, Bool.or_eq_true, Bool.and_eq_true, decide_eq_true_eq] at hxy hyz ⊢
        rcases hxy with h1 | ⟨h1e, h1t⟩
        · rcases hyz with h2 | ⟨h2e, h2t⟩
          · exact Or.inl (by omega)
          · exact Or.inl (by omega)
        · rcases hyz with h2 | ⟨h2e, h2t⟩
          · exact Or.inl (by omega)
          · exact Or.inr ⟨by omega, ih bs cs h1t h2t⟩

theorem natListLt_conn : ∀ x y, natListLt x y = false → natListLt y x = false → x = y := by
  intro x
  induction x with
  | nil =>
    intro y h1 _
    cases y with
    | nil => rfl
    | cons b bs => simp [natListLt] at h1
  | cons a as ih =>
    intro y h1 h2
    cases y with
    | nil => simp [natListLt] at h2
    | cons b bs =>
      have e1 : (decide (a < b) || (decide (a = b) && natListLt as bs)) = false := h1
      have e2 : (decide (b < a) || (decide (b = a) && natListLt bs as)) = false := h2
      have hnlt1 : ¬ a < b := by
        intro h
        rw [decide_eq_true h] at e1
        simp at e1
      have hnlt2 : ¬ b < a := by
        intro h
        rw [decide_eq_true h] at e2
        simp at e2
      have hab : a = b := by omega
      subst hab
      have h1t : natListLt as bs = false := by
        cases hx : natListLt as bs
        · rfl
        · rw [hx] at e1; simp at e1
      have h2t : natListLt bs as = false := by
        cases hx : natListLt bs as
        · rfl
        · rw [hx] at e2; simp at e2
      rw [ih bs h1t h2t]

theorem natListLt_asymm : ∀ x y, natListLt x y = true → natListLt y x = false := by
  intro x y h
  cases h2 : natListLt y x
  · rfl
  · have := natListLt_trans x y x h h2
    rw [natListLt_irrefl] at this
    exact absurd this (by simp)

theorem natListLt_append_same : ∀ (s x y : List ℕ),
    natListLt (s ++ x) (s ++ y) = natListLt x y := by
  intro s x y
  induction s with
  | nil => rfl
  | cons a s ih => simp [natListLt, ih]

theorem strCodes_append (a b : String) : strCodes (a ++ b) = strCodes a ++ strCodes b := by
  simp [strCodes, String.data_append]

/-! ## Proofs: event-key comparators -/

theorem keyLe_refl (k : ℤ × List ℕ) : keyLe k k = true := by
  simp [keyLe, natListLt_irrefl]

theorem keyLe_trans {k1 k2 k3 : ℤ × List ℕ} (h1 : keyLe k1 k2 = true)
    (h2 : keyLe k2 k3 = true) : keyLe k1 k3 = true := by
  simp only [keyLe, Bool.or_eq_true, Bool.and_eq_true, decide_eq_true_eq,
    Bool.not_eq_true'] at h1 h2 ⊢
  rcases h1 with h1 | ⟨h1e, h1d⟩ <;> rcases h2 with h2 | ⟨h2e, h2d⟩
  · exact Or.inl (by omega)
  · exact Or.inl (by omega)
  · exact Or.inl (by omega)
  · refine Or.inr ⟨by omega, ?_⟩
    cases h3 : natListLt k3.2 k1.2
    · rfl
    · exfalso
      cases h4 : natListLt k1.2 k2.2
      · have heq := natListLt_conn k2.2 k1.2 h1d h4
        rw [← heq] at h3
        rw [h3] at h2d
        exact absurd h2d (by simp)
      · have := natListLt_trans _ _ _ h3 h4
        rw [this] at h2d
        exact absurd h2d (by simp)

theorem keyLe_of_year_lt {k1 k2 : ℤ × List ℕ} (h : k1.1 < k2.1) : keyLe k1 k2 = true := by
  simp [keyLe, h]

theorem keyLe_year_le {k1 k2 : ℤ × List ℕ} (h : keyLe k1 k2 = true) : k1.1 ≤ k2.1 := by
  simp only [keyLe, Bool.or_eq_true, Bool.and_eq_true, decide_eq_true_eq] at h
  rcases h with h | ⟨h, _⟩ <;> omega

theorem histFinalLe_total (a b : Event) : histFinalLe a b = true ∨ histFinalLe b a = true := by
  simp only [histFinalLe, Bool.or_eq_true, Bool.and_eq_true, decide_eq_true_eq,
    Bool.not_eq_true']
  by_cases hy : a.year < b.year
  · exact Or.inl (Or.inl hy)
  · by_cases hy2 : b.year < a.year
    · exact Or.inr (Or.inl hy2)
    · have hye : a.year = b.year := by omega
      by_cases hd : natListLt (strCodes a.date) (strCodes b.date) = true
      · exact Or.inl (Or.inr ⟨hye, Or.inl hd⟩)
      · by_cases hd2 : natListLt (strCodes b.date) (strCodes a.date) = true
        · exact Or.inr (Or.inr ⟨hye.symm, Or.inl hd2⟩)
        · have hde : strCodes a.date = strCodes b.date :=
            natListLt_conn _ _ (Bool.eq_false_iff.mpr hd) (Bool.eq_false_iff.mpr hd2)
          by_cases hn : natListLt (strCodes b.name) (strCodes a.name) = true
          · exact Or.inr (Or.inr ⟨hye.symm, Or.inr ⟨hde.symm, natListLt_asymm _ _ hn⟩⟩)
          · exact Or.inl (Or.inr ⟨hye, Or.inr ⟨hde, Bool.eq_false_iff.mpr hn⟩⟩)

theorem natListLt_notGt_trans {x y z : List ℕ} (h1 : natListLt y x = false)
    (h2 : natListLt z y = false) : natListLt z x = false := by
  cases h3 : natListLt z x
  · rfl
  · exfalso
    cases h4 : natListLt x y
    · have heq := natListLt_conn y x h1 h4
      rw [heq] at h2
      rw [h3] at h2
      exact absurd h2 (by simp)
    · have := natListLt_trans _ _ _ h3 h4
      rw [this] at h2
      exact absurd h2 (by simp)

theorem histFinalLe_trans (a b c : Event) (h1 : histFinalLe a b = true)
    (h2 : histFinalLe b c = true) : histFinalLe a c = true := by
  simp only [histFinalLe, Bool.or_eq_true, Bool.and_eq_true, decide_eq_true_eq,
    Bool.not_eq_true'] at h1 h2 ⊢
  rcases h1 with h1 | ⟨h1e, h1d⟩ <;> rcases h2 with h2 | ⟨h2e, h2d⟩
  · exact Or.inl (by omega)
  · exact Or.inl (by omega)
  · exact Or.inl (by omega)
  · refine Or.inr ⟨by omega, ?_⟩
    rcases h1d with h1d | ⟨h1de, h1n⟩ <;> rcases h2d with h2d | ⟨h2de, h2n⟩
    · exact Or.inl (natListLt_trans _ _ _ h1d h2d)
    · exact Or.inl (h2de ▸ h1d)
    · exact Or.inl (h1de ▸ h2d)
    · exact Or.inr ⟨h1de.trans h2de, natListLt_notGt_trans h1n h2n⟩

/-! ## Proofs: stable insertion sort is sorted -/

theorem mem_orderedInsertB {α : Type} {le : α → α → Bool} (a x : α) :
    ∀ l, x ∈ orderedInsertB le a l → x = a ∨ x ∈ l := by
  intro l
  induction l with
  | nil => intro h; simpa [orderedInsertB] using h
  | cons b bs ih =>
    intro h
    rw [orderedInsertB] at h
    by_cases hc : le a b
    · rw [if_pos hc] at h
      rcases List.mem_cons.mp h with h | h
      · exact Or.inl h
      · exact Or.inr h
    · rw [if_neg hc] at h
      rcases List.mem_cons.mp h with h | h
      · exact Or.inr (h ▸ List.mem_cons_self b bs)
      · rcases ih h with h | h
        · exact Or.inl h
        · exact Or.inr (List.mem_cons_of_mem _ h)

theorem pairwise_orderedInsertB {α : Type} {le : α → α → Bool}
    (htot : ∀ a b, le a b = true ∨ le b a = true)
    (htrans : ∀ a b c, le a b = true → le b c = true → le a c = true) (a : α) :
    ∀ l, List.Pairwise (fun x y => le x y = true) l →
      List.Pairwise (fun x y => le x y = true) (orderedInsertB le a l) := by
  intro l
  induction l with
  | nil => intro _; simp [orderedInsertB]
  | cons b bs ih =>
    intro hp
    rw [List.pairwise_cons] at hp
    obtain ⟨hb, hbs⟩ := hp
    rw [orderedInsertB]
    by_cases hc : le a b
    · rw [if_pos hc, List.pairwise_cons]
      refine ⟨?_, List.pairwise_cons.mpr ⟨hb, hbs⟩⟩
      intro y hy
      rcases List.mem_cons.mp hy with rfl | hy
      · exact hc
      · exact htrans a b y hc (hb y hy)
    · rw [if_neg hc, List.pairwise_cons]
      constructor
      · intro y hy
        rcases mem_orderedInsertB a y bs hy with heq | hy
        · rw [heq]
          rcases htot a b with h | h
          · exact absurd h hc
          · exact h
        · exact hb y hy
      · exact ih hbs

theorem pairwise_sortByLe {α : Type} {le : α → α → Bool}
    (htot : ∀ a b, le a b = true ∨ le b a = true)
    (htrans : ∀ a b c, le a b = true → le b c = true → le a c = true) :
    ∀ l, List.Pairwise (fun x y => le x y = true) (sortByLe le l) := by
  intro l
  induction l with
  | nil => simp [sortByLe]
  | cons a l ih =>
    rw [sortByLe]
    exact pairwise_orderedInsertB htot htrans a _ ih

/-! ## Claims C1, C2, C5, C7, C8 (emissions projector) -/

/-- C1 (amended): the unrounded counterfactual total equals
`max (actual_total) (cf_nuclear + cf_renewables)`; the energy-conservation
identity `cf_total = actual_total` therefore holds exactly — in particular
within 0.01 on the stored rounded records — precisely when the clean side does
not exceed the actual total, i.e. when the `max(0, ·)` clamp of `cf_fossil` is
inactive.  As originally stated (for every input series), the claim is refuted
by `C1_counterexample`. -/
theorem C1_energy_conservation_amended (E : EmEnv) (rows : List GenRow) (i : ℕ)
    (h1 : i < (emissionsTraceTop E rows).length) (h2 : i < rows.length) :
    (emissionsTraceTop E rows)[i].cfTotal
      = max (emissionsTraceTop E rows)[i].actualTotal
          ((emissionsTraceTop E rows)[i].cfNuclear + (emissionsTraceTop E rows)[i].cfRenew)
    ∧ ((emissionsTraceTop E rows)[i].cfNuclear + (emissionsTraceTop E rows)[i].cfRenew
          ≤ (emissionsTraceTop E rows)[i].actualTotal →
        (emissionsTraceTop E rows)[i].recC.total_twh
          = (emissionsTraceTop E rows)[i].recA.total_twh) := by
  obtain ⟨p, hp⟩ := emissionsTraceTop_getElem E rows i h1 h2
  rw [hp]
  constructor
  · rw [emissionsStep_cfTotal, emissionsStep_cfFossilRequired]
    simp only [add_zero]
    exact add_max_sub_zero _ _
  · intro hle
    by_cases hy : (rows[i]).year ≤ START_YEAR
    · rw [emissionsStep_recC_of_le _ _ _ _ _ _ hy, emissionsStep_recA]
    · rw [emissionsStep_recC_total_of_gt _ _ _ _ _ _ (by omega), emissionsStep_recA,
        actualRecordOf_total, ← emissionsStep_actualTotal E _ _ _ p (rows[i])]
      congr 1
      rw [emissionsStep_cfTotal, emissionsStep_cfFossilRequired]
      simp only [add_zero]
      rw [add_max_sub_zero, max_eq_left hle]

/-- Witness for `C1_energy_conservation_amended` at the 1990 record of a
concrete series. -/
theorem C1_energy_conservation_amended_witness :
    ((emissionsTraceTop envW rowsEmW).get
        ⟨1, of_decide_eq_true (by with_unfolding_all rfl)⟩).cfTotal
      = max ((emissionsTraceTop envW rowsEmW).get
            ⟨1, of_decide_eq_true (by with_unfolding_all rfl)⟩).actualTotal
          (((emissionsTraceTop envW rowsEmW).get
              ⟨1, of_decide_eq_true (by with_unfolding_all rfl)⟩).cfNuclear
            + ((emissionsTraceTop envW rowsEmW).get
                ⟨1, of_decide_eq_true (by with_unfolding_all rfl)⟩).cfRenew)
    ∧ (((emissionsTraceTop envW rowsEmW).get
          ⟨1, of_decide_eq_true (by with_unfolding_all rfl)⟩).cfNuclear
          + ((emissionsTraceTop envW rowsEmW).get
              ⟨1, of_decide_eq_true (by with_unfolding_all rfl)⟩).cfRenew
          ≤ ((emissionsTraceTop envW rowsEmW).get
              ⟨1, of_decide_eq_true (by with_unfolding_all rfl)⟩).actualTotal →
        ((emissionsTraceTop envW rowsEmW).get
            ⟨1, of_decide_eq_true (by with_unfolding_all rfl)⟩).recC.total_twh
          = ((emissionsTraceTop envW rowsEmW).get
              ⟨1, of_decide_eq_true (by with_unfolding_all rfl)⟩).recA.total_twh) :=
  C1_energy_conservation_amended envW rowsEmW 1
    (of_decide_eq_true (by with_unfolding_all rfl))
    (of_decide_eq_true (by with_unfolding_all rfl))

/-- C1 counterexample: with a baseline year producing 100 TWh of nuclear and a
following year of zero actual generation, the 1990 counterfactual total is 100
while the actual total is 0 — not within 0.01. -/
theorem C1_counterexample :
    ¬ (|((compute_emissions_timeseries envW rowsC1cx).2.get
          ⟨1, of_decide_eq_true (by with_unfolding_all rfl)⟩).total_twh
        - ((compute_emissions_timeseries envW rowsC1cx).1.get
            ⟨1, of_decide_eq_true (by with_unfolding_all rfl)⟩).total_twh| ≤ 1/100) :=
  of_decide_eq_false (by with_unfolding_all rfl)

/-- C2 (amended): for every emitted record the stored `total_twh` differs from
the sum of the stored `fossil_twh + nuclear_twh + renewables_twh` by at most
0.02 (each of the four fields is rounded to two decimals independently); for
counterfactual records this additionally requires that the degenerate split
branch did not reset `cf_fossil_twh` (it is untouched exactly when
`cfFossilFinal = cfFossilRequired`).  Exact equality of the stored fields, as
claimed, is refuted by `C2_counterexample`. -/
theorem C2_total_sum_amended (E : EmEnv) (rows : List GenRow) (i : ℕ)
    (h1 : i < (emissionsTraceTop E rows).length) (h2 : i < rows.length) :
    |(emissionsTraceTop E rows)[i].recA.total_twh
        - ((emissionsTraceTop E rows)[i].recA.fossil_twh
          + (emissionsTraceTop E rows)[i].recA.nuclear_twh
          + (emissionsTraceTop E rows)[i].recA.renewables_twh)| ≤ 1/50
    ∧ ((emissionsTraceTop E rows)[i].cfFossilFinal
          = (emissionsTraceTop E rows)[i].cfFossilRequired →
        |(emissionsTraceTop E rows)[i].recC.total_twh
            - ((emissionsTraceTop E rows)[i].recC.fossil_twh
              + (emissionsTraceTop E rows)[i].recC.nuclear_twh
              + (emissionsTraceTop E rows)[i].recC.renewables_twh)| ≤ 1/50) := by
  obtain ⟨p, hp⟩ := emissionsTraceTop_getElem E rows i h1 h2
  rw [hp]
  constructor
  · rw [emissionsStep_recA, actualRecordOf_total, actualRecordOf_fossil,
      actualRecordOf_nuclear, actualRecordOf_renew]
    exact round2_sum3 _ _ _
  · intro hff
    by_cases hy : (rows[i]).year ≤ START_YEAR
    · rw [emissionsStep_recC_of_le _ _ _ _ _ _ hy, actualRecordOf_total, actualRecordOf_fossil,
        actualRecordOf_nuclear, actualRecordOf_renew]
      exact round2_sum3 _ _ _
    · rw [emissionsStep_recC_total_of_gt _ _ _ _ _ _ (by omega),
        emissionsStep_recC_fossil_of_gt _ _ _ _ _ _ (by omega),
        emissionsStep_recC_nuclear_of_gt _ _ _ _ _ _ (by omega),
        emissionsStep_recC_renew_of_gt _ _ _ _ _ _ (by omega), hff,
        emissionsStep_cfTotal]
      have harg :
          ∀ n r q : ℚ, n + r + 0 + q = q + n + r := by
        intro n r q; ring
      rw [harg]
      exact round2_sum3 _ _ _

/-- Witness for `C2_total_sum_amended` at the 1990 record of a concrete series. -/
theorem C2_total_sum_amended_witness :
    |((emissionsTraceTop envW rowsEmW).get
          ⟨1, of_decide_eq_true (by with_unfolding_all rfl)⟩).recA.total_twh
        - (((emissionsTraceTop envW rowsEmW).get
              ⟨1, of_decide_eq_true (by with_unfolding_all rfl)⟩).recA.fossil_twh
          + ((emissionsTraceTop envW rowsEmW).get
              ⟨1, of_decide_eq_true (by with_unfolding_all rfl)⟩).recA.nuclear_twh
          + ((emissionsTraceTop envW rowsEmW).get
              ⟨1, of_decide_eq_true (by with_unfolding_all rfl)⟩).recA.renewables_twh)| ≤ 1/50
    ∧ (((emissionsTraceTop envW rowsEmW).get
          ⟨1, of_decide_eq_true (by with_unfolding_all rfl)⟩).cfFossilFinal
          = ((emissionsTraceTop envW rowsEmW).get
              ⟨1, of_decide_eq_true (by with_unfolding_all rfl)⟩).cfFossilRequired →
        |((emissionsTraceTop envW rowsEmW).get
              ⟨1, of_decide_eq_true (by with_unfolding_all rfl)⟩).recC.total_twh
            - (((emissionsTraceTop envW rowsEmW).get
                  ⟨1, of_decide_eq_true (by with_unfolding_all rfl)⟩).recC.fossil_twh
              + ((emissionsTraceTop envW rowsEmW).get
                  ⟨1, of_decide_eq_true (by with_unfolding_all rfl)⟩).recC.nuclear_twh
              + ((emissionsTraceTop envW rowsEmW).get
                  ⟨1, of_decide_eq_true (by with_unfolding_all rfl)⟩).recC.renewables_twh)|
          ≤ 1/50) :=
  C2_total_sum_amended envW rowsEmW 1
    (of_decide_eq_true (by with_unfolding_all rfl))
    (of_decide_eq_true (by with_unfolding_all rfl))

/-- C5 (confirmed): the counterfactual nuclear series is monotonically
non-decreasing across adjacent records whose years lie strictly after the
baseline year, for every input generation series and capacity environment. -/
theorem C5_cf_nuclear_monotone (E : EmEnv) (rows : List GenRow) (i : ℕ)
    (h0 : i < (compute_emissions_timeseries E rows).2.length)
    (h1 : i + 1 < (compute_emissions_timeseries E rows).2.length)
    (h2 : i + 1 < rows.length)
    (hy0 : START_YEAR < ((compute_emissions_timeseries E rows).2[i]).year)
    (hy1 : START_YEAR < ((compute_emissions_timeseries E rows).2[i + 1]).year) :
    ((compute_emissions_timeseries E rows).2[i]).nuclear_twh
      ≤ ((compute_emissions_timeseries E rows).2[i + 1]).nuclear_twh := by
  simp only [compute_emissions_timeseries, List.getElem_map] at hy0 hy1 ⊢
  have ht0 : i < (emissionsTraceTop E rows).length := by
    simpa [compute_emissions_timeseries] using h0
  have ht1 : i + 1 < (emissionsTraceTop E rows).length := by
    simpa [compute_emissions_timeseries] using h1
  have hsucc := emissionsTraceTop_getElem_succ E rows i ht0 ht1 h2
  obtain ⟨p, hpi⟩ := emissionsTraceTop_getElem E rows i ht0 (by omega)
  rw [hsucc] at hy1 ⊢
  rw [hpi] at hy0 ⊢
  rw [emissionsStep_recC_year] at hy0 hy1
  rw [emissionsStep_recC_nuclear_of_gt _ _ _ _ _ _ hy0,
    emissionsStep_recC_nuclear_of_gt _ _ _ _ _ _ hy1]
  apply round2_mono
  rw [emissionsStep_cfNuclear _ _ _ _ _ (rows[i + 1])]
  calc (emissionsStep E (baselineRowOf rows).nuclear (renewablesTwhOf (freezeRowOf rows))
        (freezeRowOf rows) p rows[i]).cfNuclear
      = (emissionsStep E (baselineRowOf rows).nuclear (renewablesTwhOf (freezeRowOf rows))
          (freezeRowOf rows) p rows[i]).newPrev := (emissionsStep_newPrev _ _ _ _ _ _).symm
    _ ≤ _ := le_max_left _ _

/-- Witness for `C5_cf_nuclear_monotone` at the 1990 and 1998 records of a
concrete series. -/
theorem C5_cf_nuclear_monotone_witness :
    ((compute_emissions_timeseries envW rowsEmW).2.get
        ⟨1, of_decide_eq_true (by with_unfolding_all rfl)⟩).nuclear_twh
      ≤ ((compute_emissions_timeseries envW rowsEmW).2.get
          ⟨2, of_decide_eq_true (by with_unfolding_all rfl)⟩).nuclear_twh :=
  C5_cf_nuclear_monotone envW rowsEmW 1
    (of_decide_eq_true (by with_unfolding_all rfl))
    (of_decide_eq_true (by with_unfolding_all rfl))
    (of_decide_eq_true (by with_unfolding_all rfl))
    (of_decide_eq_true (by with_unfolding_all rfl))
    (of_decide_eq_true (by with_unfolding_all rfl))

/-- C7 (confirmed): a counterfactual record whose year is the baseline year is
identical, field for field, to the historical record of the same index, for
every input (source lines 1032-1033 overwrite it with a copy). -/
theorem C7_baseline_record_identical (E : EmEnv) (rows : List GenRow) (i : ℕ)
    (h1 : i < (compute_emissions_timeseries E rows).1.length)
    (h2 : i < (compute_emissions_timeseries E rows).2.length)
    (h3 : i < rows.length)
    (hy : ((compute_emissions_timeseries E rows).1[i]).year = START_YEAR) :
    (compute_emissions_timeseries E rows).2[i] = (compute_emissions_timeseries E rows).1[i] := by
  simp only [compute_emissions_timeseries, List.getElem_map] at hy ⊢
  have ht : i < (emissionsTraceTop E rows).length := by
    simpa [compute_emissions_timeseries] using h2
  obtain ⟨p, hp⟩ := emissionsTraceTop_getElem E rows i ht h3
  rw [hp] at hy ⊢
  rw [emissionsStep_recA, actualRecordOf_year] at hy
  rw [emissionsStep_recC_of_le _ _ _ _ _ _ (le_of_eq hy), emissionsStep_recA]

/-- Witness for `C7_baseline_record_identical` at the 1989 record of a concrete
series. -/
theorem C7_baseline_record_identical_witness :
    (compute_emissions_timeseries envW rowsEmW).2.get
        ⟨0, of_decide_eq_true (by with_unfolding_all rfl)⟩
      = (compute_emissions_timeseries envW rowsEmW).1.get
          ⟨0, of_decide_eq_true (by with_unfolding_all rfl)⟩ :=
  C7_baseline_record_identical envW rowsEmW 0
    (of_decide_eq_true (by with_unfolding_all rfl))
    (of_decide_eq_true (by with_unfolding_all rfl))
    (of_decide_eq_true (by with_unfolding_all rfl))
    (of_decide_eq_true (by with_unfolding_all rfl))

/-- C8 (confirmed): before the renewable freeze year the counterfactual
renewables equal the actual renewables of the same record; from the freeze year
on, every counterfactual record stores the same frozen renewables value (in
particular the freeze-year level), for every input. -/
theorem C8_renewables_freeze (E : EmEnv) (rows : List GenRow) :
    (∀ (i : ℕ) (h1 : i < (compute_emissions_timeseries E rows).1.length)
        (h2 : i < (compute_emissions_timeseries E rows).2.length) (h3 : i < rows.length),
        ((compute_emissions_timeseries E rows).2[i]).year < RENEWABLE_FREEZE_YEAR →
        ((compute_emissions_timeseries E rows).2[i]).renewables_twh
          = ((compute_emissions_timeseries E rows).1[i]).renewables_twh)
    ∧ (∀ (i j : ℕ) (hi2 : i < (compute_emissions_timeseries E rows).2.length)
        (hi3 : i < rows.length) (hj2 : j < (compute_emissions_timeseries E rows).2.length)
        (hj3 : j < rows.length),
        RENEWABLE_FREEZE_YEAR ≤ ((compute_emissions_timeseries E rows).2[i]).year →
        RENEWABLE_FREEZE_YEAR ≤ ((compute_emissions_timeseries E rows).2[j]).year →
        ((compute_emissions_timeseries E rows).2[i]).renewables_twh
          = ((compute_emissions_timeseries E rows).2[j]).renewables_twh) := by
  constructor
  · intro i h1 h2 h3 hy
    simp only [compute_emissions_timeseries, List.getElem_map] at hy ⊢
    have ht : i < (emissionsTraceTop E rows).length := by
      simpa [compute_emissions_timeseries] using h2
    obtain ⟨p, hp⟩ := emissionsTraceTop_getElem E rows i ht h3
    rw [hp] at hy ⊢
    rw [emissionsStep_recC_year] at hy
    rw [emissionsStep_recA, actualRecordOf_renew]
    by_cases hb : (rows[i]).year ≤ START_YEAR
    · rw [emissionsStep_recC_of_le _ _ _ _ _ _ hb, actualRecordOf_renew]
    · rw [emissionsStep_recC_renew_of_gt _ _ _ _ _ _ (by omega), emissionsStep_cfRenew,
        if_pos hy]
  · intro i j hi2 hi3 hj2 hj3 hyi hyj
    simp only [compute_emissions_timeseries, List.getElem_map] at hyi hyj ⊢
    have hti : i < (emissionsTraceTop E rows).length := by
      simpa [compute_emissions_timeseries] using hi2
    have htj : j < (emissionsTraceTop E rows).length := by
      simpa [compute_emissions_timeseries] using hj2
    obtain ⟨p, hp⟩ := emissionsTraceTop_getElem E rows i hti hi3
    obtain ⟨q, hq⟩ := emissionsTraceTop_getElem E rows j htj hj3
    rw [hp] at hyi ⊢
    rw [hq] at hyj ⊢
    rw [emissionsStep_recC_year] at hyi hyj
    rw [emissionsStep_recC_renew_frozen _ _ _ _ _ _ hyi,
      emissionsStep_recC_renew_frozen _ _ _ _ _ _ hyj]

/-- Witness for `C8_renewables_freeze`: the 1990 record keeps the actual
renewables, and the 1998 and 1999 records store the same frozen value. -/
theorem C8_renewables_freeze_witness :
    ((compute_emissions_timeseries envW rowsEmW).2.get
        ⟨1, of_decide_eq_true (by with_unfolding_all rfl)⟩).renewables_twh
      = ((compute_emissions_timeseries envW rowsEmW).1.get
          ⟨1, of_decide_eq_true (by with_unfolding_all rfl)⟩).renewables_twh
    ∧ ((compute_emissions_timeseries envW rowsEmW).2.get
        ⟨2, of_decide_eq_true (by with_unfolding_all rfl)⟩).renewables_twh
      = ((compute_emissions_timeseries envW rowsEmW).2.get
          ⟨3, of_decide_eq_true (by with_unfolding_all rfl)⟩).renewables_twh :=
  ⟨(C8_renewables_freeze envW rowsEmW).1 1
      (of_decide_eq_true (by with_unfolding_all rfl))
      (of_decide_eq_true (by with_unfolding_all rfl))
      (of_decide_eq_true (by with_unfolding_all rfl))
      (of_decide_eq_true (by with_unfolding_all rfl)),
    (C8_renewables_freeze envW rowsEmW).2 2 3
      (of_decide_eq_true (by with_unfolding_all rfl))
      (of_decide_eq_true (by with_unfolding_all rfl))
      (of_decide_eq_true (by with_unfolding_all rfl))
      (of_decide_eq_true (by with_unfolding_all rfl))
      (of_decide_eq_true (by with_unfolding_all rfl))
      (of_decide_eq_true (by with_unfolding_all rfl))⟩

/-! ## Claims C3, C9, C10 (closure selector) -/

/-- C3 (confirmed): on the three-plant scenario, the pools put A before C
before B (C excluded plants go nowhere: none matches a cogeneration pattern);
a year-2001 call needing 250 MW with ample running fossil excludes C (closed
2000 < 2001), closes exactly A (B's 150 MW exceeds the remaining 50 MW need),
reports 200 MW closed and leaves a 50 MW shortfall. -/
theorem C3_closure_selection :
    build_fossil_candidate_pools plantsC3
        = ([mkPlantRecord rowPlantA, mkPlantRecord rowPlantC, mkPlantRecord rowPlantB], [])
    ∧ pick_fossil_closures 2001 250 1000 (build_fossil_candidate_pools plantsC3).1
          (build_fossil_candidate_pools plantsC3).2 ∅
        = ([mkPlantRecord rowPlantA], 200, {0})
    ∧ (rowPlantC.idx ∉
        (pick_fossil_closures 2001 250 1000 (build_fossil_candidate_pools plantsC3).1
          (build_fossil_candidate_pools plantsC3).2 ∅).2.2)
    ∧ 250 - (pick_fossil_closures 2001 250 1000 (build_fossil_candidate_pools plantsC3).1
          (build_fossil_candidate_pools plantsC3).2 ∅).2.1 = 50 :=
  ⟨of_decide_eq_true (by with_unfolding_all rfl),
    of_decide_eq_true (by with_unfolding_all rfl),
    of_decide_eq_true (by with_unfolding_all rfl),
    of_decide_eq_true (by with_unfolding_all rfl)⟩

/-- C9 (confirmed): with `capacity_needed ≤ 0` or `running_fossil ≤ 0` the
selector returns no closings, zero closed capacity, and the closed-id set
unchanged. -/
theorem C9_nonpositive_guard (year : ℤ) (capacity_needed running_fossil : ℚ)
    (primary_pool fallback_pool : List PlantRecord) (closed_ids : Finset ℤ)
    (h : capacity_needed ≤ 0 ∨ running_fossil ≤ 0) :
    pick_fossil_closures year capacity_needed running_fossil primary_pool fallback_pool
        closed_ids
      = ([], 0, closed_ids) := by
  unfold pick_fossil_closures
  rw [if_pos h.symm]

/-- Witness for `C9_nonpositive_guard` at a concrete call. -/
theorem C9_nonpositive_guard_witness :
    pick_fossil_closures 2000 (-5) 100 [] [] {7} = ([], 0, {7}) :=
  C9_nonpositive_guard 2000 (-5) 100 [] [] {7} (Or.inl (by norm_num))

/-- Invariant of one `consume` scan: the remaining need always equals
`max 0 (capacity_needed - total_closed)`, and the accumulated total never
exceeds `capacity_needed + 1e-6`. -/
theorem consumePool_invariant (year : ℤ) (capacity_needed : ℚ) :
    ∀ (pool : List PlantRecord) (st : PickState),
      st.remaining_needed = max 0 (capacity_needed - st.total_closed) →
      (consumePool year capacity_needed st pool).remaining_needed
          = max 0 (capacity_needed - (consumePool year capacity_needed st pool).total_closed)
        ∧ (st.total_closed ≤ capacity_needed + 1/1000000 →
            (consumePool year capacity_needed st pool).total_closed
              ≤ capacity_needed + 1/1000000) := by
  intro pool
  induction pool with
  | nil => intro st hst; exact ⟨hst, fun h => h⟩
  | cons record rest ih =>
    intro st hst
    by_cases h1 : st.remaining_needed ≤ 1/1000000
    · rw [consumePool, if_pos h1]
      exact ⟨hst, fun h => h⟩
    · by_cases h2 : record.record_id ∈ st.closed_ids
      · rw [consumePool, if_neg h1, if_pos h2]; exact ih st hst
      · by_cases h3 : (match record.commission_year with
            | some c => decide (year < c)
            | none => false) = true
        · rw [consumePool, if_neg h1, if_neg h2, if_pos h3]; exact ih st hst
        · by_cases h4 : (match record.closure_year with
              | some c => decide (c < year)
              | none => false) = true
          · rw [consumePool, if_neg h1, if_neg h2, if_neg h3, if_pos h4]; exact ih st hst
          · by_cases h5 : st.remaining_needed + 1/1000000 < record.capacity_mw
            · rw [consumePool, if_neg h1, if_neg h2, if_neg h3, if_neg h4, if_pos h5]
              exact ih st hst
            · rw [consumePool, if_neg h1, if_neg h2, if_neg h3, if_neg h4, if_neg h5]
              have hrem : st.remaining_needed = capacity_needed - st.total_closed := by
                rw [hst]
                rw [max_eq_right]
                rw [hst] at h1
                by_contra hlt
                push_neg at hlt
                rw [max_eq_left (by linarith)] at h1
                norm_num at h1
              obtain ⟨ha, hb⟩ := ih
                { closings := st.closings ++ [record]
                  total_closed := st.total_closed + record.capacity_mw
                  remaining_needed :=
                    max 0 (capacity_needed - (st.total_closed + record.capacity_mw))
                  closed_ids := insert record.record_id st.closed_ids } rfl
              refine ⟨ha, fun _ => hb ?_⟩
              push_neg at h5
              have : record.capacity_mw ≤ st.remaining_needed + 1/1000000 := h5
              simp only
              linarith [hrem]

/-- C10 (amended): for every call with `capacity_needed ≥ 0` — which covers
every call the simulator makes, guarded by `closure_target_mw > 0` — the
returned total closed capacity is at most `capacity_needed + 1e-6`, so the
overshoot-rollback branch of `build_counterfactual_events` cannot trigger.
The literal "every call" reading fails for negative targets
(`C10_counterexample`). -/
theorem C10_no_overshoot (year : ℤ) (capacity_needed running_fossil : ℚ)
    (primary_pool fallback_pool : List PlantRecord) (closed_ids : Finset ℤ)
    (h : 0 ≤ capacity_needed) :
    (pick_fossil_closures year capacity_needed running_fossil primary_pool fallback_pool
        closed_ids).2.1
      ≤ capacity_needed + 1/1000000 := by
  unfold pick_fossil_closures
  by_cases hg : running_fossil ≤ 0 ∨ capacity_needed ≤ 0
  · rw [if_pos hg]; simpa using by linarith
  · rw [if_neg hg]
    simp only
    by_cases he : max capacity_needed 0 ≤ 1/1000000
    · rw [if_pos he]; simpa using by linarith
    · rw [if_neg he]
      have hinit : (PickState.mk [] 0 (max capacity_needed 0) closed_ids).remaining_needed
          = max 0 (capacity_needed - (PickState.mk [] 0 (max capacity_needed 0)
              closed_ids).total_closed) := by
        simp only
        rw [max_comm, sub_zero]
      obtain ⟨ha1, hb1⟩ := consumePool_invariant year capacity_needed primary_pool _ hinit
      have htot1 := hb1 (by simpa using by linarith)
      by_cases hf : 1/1000000
          < (consumePool year capacity_needed
              (PickState.mk [] 0 (max capacity_needed 0) closed_ids) primary_pool).remaining_needed
      · rw [if_pos hf]
        obtain ⟨ha2, hb2⟩ := consumePool_invariant year capacity_needed fallback_pool _ ha1
        have htot2 := hb2 htot1
        calc min (consumePool year capacity_needed _ fallback_pool).total_closed running_fossil
            ≤ (consumePool year capacity_needed _ fallback_pool).total_closed :=
              min_le_left _ _
          _ ≤ capacity_needed + 1/1000000 := htot2
      · rw [if_neg hf]
        calc min (consumePool year capacity_needed _ primary_pool).total_closed running_fossil
            ≤ (consumePool year capacity_needed _ primary_pool).total_closed := min_le_left _ _
          _ ≤ capacity_needed + 1/1000000 := htot1

/-- Witness for `C10_no_overshoot` on the C3 scenario pools. -/
theorem C10_no_overshoot_witness :
    (pick_fossil_closures 2001 250 1000 (build_fossil_candidate_pools plantsC3).1
        (build_fossil_candidate_pools plantsC3).2 ∅).2.1
      ≤ 250 + 1/1000000 :=
  C10_no_overshoot 2001 250 1000 (build_fossil_candidate_pools plantsC3).1
    (build_fossil_candidate_pools plantsC3).2 ∅ (by norm_num)

/-- C10 counterexample: a call with a negative `capacity_needed` returns 0
closed MW, which exceeds `capacity_needed + 1e-6`; the claimed bound does not
hold for literally every call. -/
theorem C10_counterexample :
    ¬ ((pick_fossil_closures 2000 (-1) 1 [] [] ∅).2.1 ≤ -1 + 1/1000000) :=
  of_decide_eq_false (by with_unfolding_all rfl)

/-! ## Claim C4 (fossil floor invariant) -/

/-- After each unit, the running fossil capacity is at least the fossil floor
computed from the post-build nuclear capacity (source line 643 takes a `max`
with the floor). -/
theorem simUnit_running_fossil_ge_floor (ctx : SimCtx) (year : ℤ) (units_this_year : ℕ)
    (year_other_capacity year_total_requirement : ℚ) (unit_index : ℕ) (st : SimState) :
    max 0 (year_total_requirement
        - ((simUnit ctx year units_this_year year_other_capacity year_total_requirement
              unit_index st).running_nuclear
          + year_other_capacity))
      ≤ (simUnit ctx year units_this_year year_other_capacity year_total_requirement
          unit_index st).running_fossil :=
  le_max_right _ _

/-- A nonempty unit fold ends with a unit whose floor uses the final nuclear
total, so the floor invariant holds after the fold. -/
theorem foldUnits_running_fossil_ge_floor (ctx : SimCtx) (year : ℤ) (u : ℕ)
    (o t : ℚ) (st : SimState) (h : 0 < u) :
    max 0 (t - (((List.range u).foldl (fun s i => simUnit ctx year u o t i s) st).running_nuclear
          + o))
      ≤ ((List.range u).foldl (fun s i => simUnit ctx year u o t i s) st).running_fossil := by
  obtain ⟨v, rfl⟩ : ∃ v, u = v + 1 := ⟨u - 1, by omega⟩
  rw [List.range_succ, List.foldl_append, List.foldl_cons, List.foldl_nil]
  exact simUnit_running_fossil_ge_floor ctx year (v + 1) o t v _

/-- From the build-start year on, every year builds at least one unit. -/
theorem unitsForYear_pos (year : ℤ) (h : BUILD_START_YEAR ≤ year) : 0 < unitsForYear year := by
  unfold unitsForYear
  rw [if_neg (by omega)]
  simp only [UNITS_PER_YEAR_PATTERN, List.length_cons, List.length_nil]
  have h0 : 0 ≤ (year - BUILD_START_YEAR) % 2 := Int.emod_nonneg _ (by norm_num)
  have h1 : (year - BUILD_START_YEAR) % 2 < 2 := Int.emod_lt_of_pos _ (by norm_num)
  have : (year - BUILD_START_YEAR) % 2 = 0 ∨ (year - BUILD_START_YEAR) % 2 = 1 := by omega
  rcases this with hm | hm
  · norm_num [hm]
  · norm_num [hm]

theorem simYear_running_fossil_proj (ctx : SimCtx) (year : ℤ) (st : SimState) :
    (simYear ctx year st).running_fossil
      = ((List.range (unitsForYear year)).foldl
          (fun s i =>
            simUnit ctx year (unitsForYear year) (yearCapRow ctx.actual_capacity year).other_mw
              (yearCapRow ctx.actual_capacity year).total_mw i s)
          st).running_fossil := rfl

theorem simYear_running_nuclear_proj (ctx : SimCtx) (year : ℤ) (st : SimState) :
    (simYear ctx year st).running_nuclear
      = ((List.range (unitsForYear year)).foldl
          (fun s i =>
            simUnit ctx year (unitsForYear year) (yearCapRow ctx.actual_capacity year).other_mw
              (yearCapRow ctx.actual_capacity year).total_mw i s)
          st).running_nuclear := rfl

/-- C4 (amended): for every year from the build-start year on (equivalently,
every year that processes at least one unit), and from any state, the running
fossil capacity after the year's units is at least that year's fossil floor
`max 0 (total_requirement − (nuclear_after_build + other))`.  As stated — for
*every* simulated year — the claim fails at the baseline year, which builds no
units and enforces no floor (`C4_counterexample`). -/
theorem C4_fossil_floor_amended (ctx : SimCtx) (year : ℤ) (st : SimState)
    (h : BUILD_START_YEAR ≤ year) :
    max 0 ((yearCapRow ctx.actual_capacity year).total_mw
        - ((simYear ctx year st).running_nuclear
          + (yearCapRow ctx.actual_capacity year).other_mw))
      ≤ (simYear ctx year st).running_fossil := by
  rw [simYear_running_fossil_proj, simYear_running_nuclear_proj]
  exact foldUnits_running_fossil_ge_floor ctx year (unitsForYear year)
    (yearCapRow ctx.actual_capacity year).other_mw
    (yearCapRow ctx.actual_capacity year).total_mw st (unitsForYear_pos year h)

/-- Witness for `C4_fossil_floor_amended`: year 1990 of the concrete two-plant
run. -/
theorem C4_fossil_floor_amended_witness :
    max 0 ((yearCapRow (mkSimCtx plantsSimW capsSimW 1989 1990 []).1.actual_capacity 1990).total_mw
        - ((simYear (mkSimCtx plantsSimW capsSimW 1989 1990 []).1 1990
              (mkSimCtx plantsSimW capsSimW 1989 1990 []).2).running_nuclear
          + (yearCapRow (mkSimCtx plantsSimW capsSimW 1989 1990 []).1.actual_capacity
              1990).other_mw))
      ≤ (simYear (mkSimCtx plantsSimW capsSimW 1989 1990 []).1 1990
          (mkSimCtx plantsSimW capsSimW 1989 1990 []).2).running_fossil :=
  C4_fossil_floor_amended (mkSimCtx plantsSimW capsSimW 1989 1990 []).1 1990
    (mkSimCtx plantsSimW capsSimW 1989 1990 []).2
    (of_decide_eq_true (by with_unfolding_all rfl))

/-- C4 counterexample: in the baseline year 1989 (no units built) the running
fossil capacity can stay below the year's floor — here 100 MW of fossil against
a 1000 MW requirement. -/
theorem C4_counterexample :
    ¬ (max 0 ((yearCapRow (simRun plantsC4x capsC4x 1989 1989 []).1.actual_capacity 1989).total_mw
          - (((simRun plantsC4x capsC4x 1989 1989 []).2).running_nuclear
            + (yearCapRow (simRun plantsC4x capsC4x 1989 1989 []).1.actual_capacity
                1989).other_mw))
        ≤ ((simRun plantsC4x capsC4x 1989 1989 []).2).running_fossil) :=
  of_decide_eq_false (by with_unfolding_all rfl)

/-! ## Claim C6 (event list ordering) -/

theorem closureLoop_mem (event_date : String) (year : ℤ) (fl du : ℚ) :
    ∀ (cs : List PlantRecord) (rem : ℚ) (bd : FossilCaps) (e : Event),
      e ∈ (closureLoop event_date year fl du cs rem bd).1 →
      e.year = year ∧ e.date = event_date := by
  intro cs
  induction cs with
  | nil => intro rem bd e h; simp [closureLoop] at h
  | cons c rest ih =>
    intro rem bd e h
    simp only [closureLoop, List.mem_cons] at h
    rcases h with rfl | h
    · exact ⟨rfl, rfl⟩
    · exact ih _ _ e h

theorem closureEntriesOf_mem (event_date : String) (year : ℤ) (fl du fb : ℚ)
    (bd : FossilCaps) (fs0 : List String) (cs : List PlantRecord) (e : Event)
    (h : e ∈ (closureEntriesOf event_date year fl du fb bd fs0 cs).1) :
    e.year = year ∧ e.date = event_date := by
  unfold closureEntriesOf at h
  by_cases hc : cs.isEmpty
  · rw [if_pos hc] at h
    by_cases hd : 0 < du
    · rw [if_pos hd] at h
      simp only [List.mem_singleton] at h
      rw [h]
      exact ⟨rfl, rfl⟩
    · rw [if_neg hd] at h
      simp at h
  · rw [if_neg hc] at h
    exact closureLoop_mem _ _ _ _ cs _ _ e h

theorem simUnit_events_spec (ctx : SimCtx) (year : ℤ) (u : ℕ) (o t : ℚ) (i : ℕ)
    (st : SimState) :
    ∃ new, (simUnit ctx year u o t i st).events = st.events ++ new
      ∧ ∀ e ∈ new, e.year = year ∧ e.date = eventDateOf year (monthOf u i) := by
  refine ⟨_, List.append_assoc _ _ _, ?_⟩
  intro e he
  rcases List.mem_append.mp he with he | he
  · exact closureEntriesOf_mem _ _ _ _ _ _ _ _ e he
  · rw [List.mem_singleton] at he
    rw [he]
    exact ⟨rfl, rfl⟩

theorem chain'_const_key (k : ℤ × List ℕ) :
    ∀ l : List Event, (∀ e ∈ l, cfKey e = k) →
      List.Chain' (fun a b => cfEventLe a b = true) l := by
  intro l
  induction l with
  | nil => intro _; simp
  | cons a l ih =>
    intro h
    cases l with
    | nil => simp
    | cons b l2 =>
      rw [List.chain'_cons]
      refine ⟨?_, ih (fun e he => h e (List.mem_cons_of_mem _ he))⟩
      show cfEventLe a b = true
      unfold cfEventLe
      rw [h a (List.mem_cons_self _ _), h b (List.mem_cons_of_mem _ (List.mem_cons_self _ _))]
      exact keyLe_refl k

theorem EvOkB_append {l new : List Event} {b k : ℤ × List ℕ} (h : EvOkB l b)
    (hbk : keyLe b k = true) (hnew : ∀ e ∈ new, cfKey e = k) : EvOkB (l ++ new) k := by
  constructor
  · rw [List.chain'_append]
    refine ⟨h.1, chain'_const_key k new hnew, ?_⟩
    intro x hx y hy
    have hxl := List.mem_of_mem_getLast? hx
    have hyn := List.mem_of_mem_head? hy
    show cfEventLe x y = true
    unfold cfEventLe
    rw [hnew y hyn]
    exact keyLe_trans (h.2 x hxl) hbk
  · intro e he
    rcases List.mem_append.mp he with he | he
    · exact keyLe_trans (h.2 e he) hbk
    · rw [hnew e he]
      exact keyLe_refl k

theorem simUnit_EvOkB (ctx : SimCtx) (year : ℤ) (u : ℕ) (o t : ℚ) (i : ℕ) (st : SimState)
    {b : ℤ × List ℕ} (h : EvOkB st.events b)
    (hb : keyLe b (year, strCodes (eventDateOf year (monthOf u i))) = true) :
    EvOkB (simUnit ctx year u o t i st).events
      (year, strCodes (eventDateOf year (monthOf u i))) := by
  obtain ⟨new, hEq, hprop⟩ := simUnit_events_spec ctx year u o t i st
  rw [hEq]
  refine EvOkB_append h hb ?_
  intro e he
  obtain ⟨hy, hd⟩ := hprop e he
  simp [cfKey, hy, hd]

theorem strCodes_eventDateOf (y : ℤ) (m : ℕ) :
    strCodes (eventDateOf y m)
      = strCodes (toString y ++ "-") ++ (strCodes (monthStr2 m) ++ strCodes "-01") := by
  unfold eventDateOf
  rw [strCodes_append, strCodes_append, List.append_assoc]

theorem keyLe_same_year_dates (y : ℤ) (m1 m2 : ℕ)
    (h : natListLt (strCodes (monthStr2 m2) ++ strCodes "-01")
        (strCodes (monthStr2 m1) ++ strCodes "-01") = false) :
    keyLe (y, strCodes (eventDateOf y m1)) (y, strCodes (eventDateOf y m2)) = true := by
  simp only [keyLe]
  rw [strCodes_eventDateOf, strCodes_eventDateOf, natListLt_append_same, h]
  simp

theorem simYear_events_proj (ctx : SimCtx) (year : ℤ) (st : SimState) :
    (simYear ctx year st).events
      = ((List.range (unitsForYear year)).foldl
          (fun s i => simUnit ctx year (unitsForYear year)
            (yearCapRow ctx.actual_capacity year).other_mw
            (yearCapRow ctx.actual_capacity year).total_mw i s) st).events := rfl

theorem EvOkYearB_to_EvOkB {l : List Event} {y : ℤ} (d : List ℕ)
    (h : EvOkYearB l (y - 1)) : EvOkB l (y, d) := by
  refine ⟨h.1, fun e he => ?_⟩
  apply keyLe_of_year_lt
  have := h.2 e he
  simp only [cfKey]
  omega

theorem EvOkB_to_EvOkYearB {l : List Event} {y : ℤ} {d : List ℕ}
    (h : EvOkB l (y, d)) : EvOkYearB l y := by
  refine ⟨h.1, fun e he => ?_⟩
  have := keyLe_year_le (h.2 e he)
  simpa [cfKey] using this

theorem unitsForYear_cases (year : ℤ) (h : ¬ year < BUILD_START_YEAR) :
    unitsForYear year = 2 ∨ unitsForYear year = 1 := by
  unfold unitsForYear
  rw [if_neg h]
  have hlen : ((UNITS_PER_YEAR_PATTERN.length : ℕ) : ℤ) = 2 := by
    simp [UNITS_PER_YEAR_PATTERN]
  rw [hlen]
  have h0 : 0 ≤ (year - BUILD_START_YEAR) % 2 := Int.emod_nonneg _ (by norm_num)
  have h1 : (year - BUILD_START_YEAR) % 2 < 2 := Int.emod_lt_of_pos _ (by norm_num)
  have hm : (year - BUILD_START_YEAR) % 2 = 0 ∨ (year - BUILD_START_YEAR) % 2 = 1 := by omega
  rcases hm with hm | hm <;> rw [hm]
  · exact Or.inl rfl
  · exact Or.inr rfl

theorem simYear_EvOkYearB (ctx : SimCtx) (year : ℤ) (st : SimState)
    (h : EvOkYearB st.events (year - 1)) : EvOkYearB (simYear ctx year st).events year := by
  rw [simYear_events_proj]
  by_cases hb : year < BUILD_START_YEAR
  · have h0 : unitsForYear year = 0 := by unfold unitsForYear; rw [if_pos hb]
    rw [h0]
    simp only [List.range_zero, List.foldl_nil]
    exact ⟨h.1, fun e he => by have := h.2 e he; omega⟩
  · rcases unitsForYear_cases year hb with h2 | h2
    · rw [h2]
      have hr : List.range 2 = [0, 1] := rfl
      rw [hr]
      simp only [List.foldl_cons, List.foldl_nil]
      have s1 := simUnit_EvOkB ctx year 2 (yearCapRow ctx.actual_capacity year).other_mw
        (yearCapRow ctx.actual_capacity year).total_mw 0 st
        (EvOkYearB_to_EvOkB _ h) (keyLe_refl _)
      have s2 := simUnit_EvOkB ctx year 2 (yearCapRow ctx.actual_capacity year).other_mw
        (yearCapRow ctx.actual_capacity year).total_mw 1 _ s1
        (keyLe_same_year_dates year (monthOf 2 0) (monthOf 2 1) (by with_unfolding_all rfl))
      exact EvOkB_to_EvOkYearB s2
    · rw [h2]
      have hr : List.range 1 = [0] := rfl
      rw [hr]
      simp only [List.foldl_cons, List.foldl_nil]
      have s1 := simUnit_EvOkB ctx year 1 (yearCapRow ctx.actual_capacity year).other_mw
        (yearCapRow ctx.actual_capacity year).total_mw 0 st
        (EvOkYearB_to_EvOkB _ h) (keyLe_refl _)
      exact EvOkB_to_EvOkYearB s1

theorem foldYears_EvOkYearB (ctx : SimCtx) :
    ∀ (n : ℕ) (s : ℤ) (st : SimState), EvOkYearB st.events (s - 1) →
      EvOkYearB (((List.range n).map (fun i : ℕ => s + (i : ℤ))).foldl
          (fun acc y => simYear ctx y acc) st).events (s + n - 1) := by
  intro n
  induction n with
  | zero => intro s st h; simpa using h
  | succ m ih =>
    intro s st h
    have hr : (List.range (m + 1)).map (fun i : ℕ => s + (i : ℤ))
        = s :: (List.range m).map (fun i : ℕ => (s + 1) + (i : ℤ)) := by
      rw [List.range_succ_eq_map, List.map_cons, List.map_map]
      have hf : ((fun i : ℕ => s + (i : ℤ)) ∘ Nat.succ)
          = (fun i : ℕ => (s + 1) + (i : ℤ)) := by
        funext i
        simp only [Function.comp]
        push_cast
        ring
      rw [hf]
      norm_num
    rw [hr, List.foldl_cons]
    have h1 := simYear_EvOkYearB ctx s st h
    have h2 := ih (s + 1) (simYear ctx s st) (by simpa using h1)
    have harith : (s + 1) + (m : ℤ) - 1 = s + ((m : ℤ) + 1) - 1 := by ring
    rw [harith] at h2
    have hcast : s + (((m + 1 : ℕ)) : ℤ) - 1 = s + ((m : ℤ) + 1) - 1 := by push_cast; ring
    rw [hcast]
    exact h2

theorem cf_events_chain' (plants : List PlantsRow) (actual_capacity : List CapRow)
    (start_year end_year : ℤ) (planned_konvois : List Konvoi) :
    List.Chain' (fun a b => cfEventLe a b = true)
      (build_counterfactual_events plants actual_capacity start_year end_year
          planned_konvois).1 := by
  have hne : ((mkSimCtx plants actual_capacity start_year end_year planned_konvois).2).events
      = [] := rfl
  have h0 : EvOkYearB
      ((mkSimCtx plants actual_capacity start_year end_year planned_konvois).2).events
      (start_year - 1) := by
    rw [hne]
    exact ⟨trivial, by intro e he; simp at he⟩
  have hmain := foldYears_EvOkYearB
    (mkSimCtx plants actual_capacity start_year end_year planned_konvois).1
    (end_year + 1 - start_year).toNat start_year
    (mkSimCtx plants actual_capacity start_year end_year planned_konvois).2 h0
  exact hmain.1

theorem chainLeB_iff {α : Type} (le : α → α → Bool) :
    ∀ l : List α, chainLeB le l = true ↔ List.Chain' (fun a b => le a b = true) l := by
  intro l
  induction l with
  | nil => simp [chainLeB]
  | cons a l ih =>
    cases l with
    | nil => simp [chainLeB]
    | cons b l2 =>
      rw [chainLeB, List.chain'_cons, Bool.and_eq_true, ih]

/-- C6 (amended): the historical event list is sorted under the full
`(year, date, name)` ordering (it is explicitly sorted at source line 830); the
counterfactual event list is sorted under `(year, date)` only — events sharing
a year and date are emitted closures-first without name ordering and the list
is never re-sorted, refuting the claim as stated (`C6_counterexample`). -/
theorem C6_event_sort_amended :
    (∀ (fossil_builds : List BuildsRow) (plants : List PlantsRow) (start_year end_year : ℤ),
        List.Chain' (fun a b => histFinalLe a b = true)
          (build_historical_events fossil_builds plants start_year end_year))
    ∧ (∀ (plants : List PlantsRow) (actual_capacity : List CapRow) (start_year end_year : ℤ)
          (planned_konvois : List Konvoi),
        List.Chain' (fun a b => cfEventLe a b = true)
          (build_counterfactual_events plants actual_capacity start_year end_year
              planned_konvois).1) := by
  constructor
  · intro fossil_builds plants start_year end_year
    exact (pairwise_sortByLe histFinalLe_total histFinalLe_trans _).chain'
  · intro plants actual_capacity start_year end_year planned_konvois
    exact cf_events_chain' plants actual_capacity start_year end_year planned_konvois

/-- C6 counterexample: in a concrete two-plant run, the 1990 closure of
"Zzz (Zzz-town)" immediately precedes the build of "Aaa Unit 2" with the same
year and date, so the adjacent pair is out of order under
`(year, date, name)` — the counterfactual list is not sorted as claimed. -/
theorem C6_counterexample :
    ¬ List.Chain' (fun a b => histFinalLe a b = true)
        (build_counterfactual_events plantsSimW capsSimW 1989 1990 []).1 := by
  intro h
  have hb := (chainLeB_iff histFinalLe _).mpr h
  rw [show chainLeB histFinalLe
      (build_counterfactual_events plantsSimW capsSimW 1989 1990 []).1 = false from by
    with_unfolding_all rfl] at hb
  exact Bool.noConfusion hb

/-- C2 counterexample: with 0.004 TWh in each of coal, nuclear and hydro, the
stored components all round to 0.00 while the stored total rounds to 0.01, so
the stored fields do not satisfy `total = fossil + nuclear + renewables`. -/
theorem C2_counterexample :
    ¬ (((compute_emissions_timeseries envW rowsC2cx).1.get
          ⟨0, of_decide_eq_true (by with_unfolding_all rfl)⟩).total_twh
        = ((compute_emissions_timeseries envW rowsC2cx).1.get
            ⟨0, of_decide_eq_true (by with_unfolding_all rfl)⟩).fossil_twh
          + ((compute_emissions_timeseries envW rowsC2cx).1.get
              ⟨0, of_decide_eq_true (by with_unfolding_all rfl)⟩).nuclear_twh
          + ((compute_emissions_timeseries envW rowsC2cx).1.get
              ⟨0, of_decide_eq_true (by with_unfolding_all rfl)⟩).renewables_twh) :=
  of_decide_eq_false (by with_unfolding_all rfl)

end CFRollout
